import Mathlib

/-!
Verification of the MPEG-TS packet and descriptor codec (go-astits core).

This file gives a shallow embedding of the packet codec (`packet.go`), the
bit writer and CRC writer (`crc32.go`) and the descriptor codec
(`descriptor.go`), and proves the quantified properties stated in the
specification about them.

Conventions of the embedding:
* Go byte slices are `List Nat`, each element a byte value; casts of the
  form `byte(x)` / `uint8(x)` are `% 256` at the conversion point.
* Go `int` values that can be negative (splice countdown, stuffing length,
  transport private data length) are `Int`; values that the source keeps
  non-negative (offsets, lengths read from bytes) are `Nat`.
* fallible operations return `(Except Err α) × State` so that the state of
  the iterator / writer is observable also on the error path, as it is in Go.
* A Go `nil`-pointer dereference (a panic) is modelled by the dedicated
  error `Err.nilDeref`; it is unreachable on the inputs the claims quantify
  over.
-/

namespace Astits

/-- Errors of the embedded codec: reader underrun, Go panic (modelled),
sync byte missing, the skipped-packet sentinel, payload overflow on write,
a latched sink error (with the sink's error code), a nil dereference, and
fuel exhaustion of an embedded loop (unreachable for the loops' actual
fuel, which always bounds the iteration count). -/
inductive Err where
  | noMoreBytes
  | panicked
  | syncByteMissing
  | skippedPacket
  | payloadOverflow
  | sinkErr (code : Nat)
  | nilDeref
  | fuelExhausted
  deriving DecidableEq, Repr

/-! ### Byte iterator

Modelled from the spec: the reader contract of section 4.1
(`astikit.BytesIterator`, an external collaborator of this repository):
a caller-owned byte buffer with cursor semantics and the operations
`next_byte`, `next_bytes(n)` (copying), `next_bytes_nocopy(n)`,
`offset`, `len`, `seek(absolute)`, `skip(delta, signed)`, `dump()`.
Reading past the end fails with a `read past end` error
(`Err.noMoreBytes` here). Go's offset is an `int`; it can only become
negative through `Seek`/`Skip`, after which the next read panics; we
keep the offset a `Nat` (clamping in `Seek`/`Skip`), a region no claim
and no in-scope execution reaches. -/
structure BytesIterator where
  bs : List Nat
  offset : Nat
  deriving DecidableEq, Repr

/-- Result of a fallible parsing step: the outcome plus the iterator
state after the step (also on failure, as in Go). -/
abbrev PRes (α : Type) := (Except Err α) × BytesIterator

/-- Sequencing of parsing steps: propagate the first error together with
the iterator state at which it occurred. -/
def pbind {α β : Type} (r : PRes α) (f : α → BytesIterator → PRes β) : PRes β :=
  match r with
  | (.error e, it) => (.error e, it)
  | (.ok a, it) => f a it

@[simp] theorem pbind_ok {α β : Type} (a : α) (it : BytesIterator)
    (f : α → BytesIterator → PRes β) : pbind (.ok a, it) f = f a it := rfl

@[simp] theorem pbind_error {α β : Type} (e : Err) (it : BytesIterator)
    (f : α → BytesIterator → PRes β) : pbind (.error e, it) f = (.error e, it) := rfl

/-- Inversion of a successful `pbind`: the first step succeeded and the
continuation produced the final result. -/
theorem pbind_eq_ok {α β : Type} {r : PRes α} {f : α → BytesIterator → PRes β}
    {b : β} {it2 : BytesIterator} (h : pbind r f = (.ok b, it2)) :
    ∃ a it1, r = (.ok a, it1) ∧ f a it1 = (.ok b, it2) := by
  obtain ⟨r1, it1⟩ := r
  cases r1 with
  | error e => simp [pbind] at h
  | ok a => exact ⟨a, it1, rfl, h⟩

instance {ε α : Type} [DecidableEq ε] [DecidableEq α] : DecidableEq (Except ε α)
  | .ok a, .ok b => if h : a = b then isTrue (by simp [h]) else isFalse (by simp [h])
  | .ok _, .error _ => isFalse (by simp)
  | .error _, .ok _ => isFalse (by simp)
  | .error a, .error b => if h : a = b then isTrue (by simp [h]) else isFalse (by simp [h])

namespace BytesIterator

/-- Reads the next byte; fails without advancing when no byte remains. -/
def NextByte (it : BytesIterator) : PRes Nat :=
  if it.bs.length < it.offset + 1 then (.error .noMoreBytes, it)
  else (.ok (it.bs.getD it.offset 0), { it with offset := it.offset + 1 })

/-- Reads the next `n` bytes (copying); fails without advancing when fewer
than `n` bytes remain. -/
def NextBytes (it : BytesIterator) (n : Nat) : PRes (List Nat) :=
  if it.bs.length < it.offset + n then (.error .noMoreBytes, it)
  else (.ok ((it.bs.drop it.offset).take n), { it with offset := it.offset + n })

/-- Reads the next `n` bytes without copying; in this embedding identical
to `NextBytes` (aliasing is immaterial for values). -/
def NextBytesNoCopy (it : BytesIterator) (n : Nat) : PRes (List Nat) :=
  NextBytes it n

/-- Moves the cursor to an absolute position. -/
def Seek (it : BytesIterator) (n : Int) : BytesIterator :=
  { it with offset := n.toNat }

/-- Moves the cursor by a signed delta. -/
def Skip (it : BytesIterator) (n : Int) : BytesIterator :=
  { it with offset := ((it.offset : Int) + n).toNat }

/-- Length of the underlying buffer. -/
def Len (it : BytesIterator) : Nat := it.bs.length

/-- Current cursor position. -/
def Offset (it : BytesIterator) : Nat := it.offset

/-- Remaining bytes from the cursor on. -/
def Dump (it : BytesIterator) : List Nat := it.bs.drop it.offset

end BytesIterator

/-- Runs a parsing step only under a flag, as the source does for
flag-gated optional sub-fields; the absent case yields `none` without
touching the iterator. -/
def optParse {α : Type} (cond : Bool) (p : BytesIterator → PRes α)
    (it : BytesIterator) : PRes (Option α) :=
  if cond then
    pbind (p it) fun a it => (.ok (some a), it)
  else (.ok none, it)

/-! ### Bit writer (`lightweightBitsWriter`, second half of `crc32.go`)

The sink (`io.Writer` in Go) is abstracted as a state type `σ` with a
write function returning the new sink state and an optional error code;
the Go one-byte scratch buffer `bsCache` is modelled by passing the byte
to flush directly. -/

/-- A byte sink: from a sink state and a byte list, the new sink state and
an optional error code (Go `io.Writer` errors, identified by code). -/
def Sink (σ : Type) := σ → List Nat → σ × Option Nat

/-- The writer: sink state, single-byte bit cache (bits packed MSB-first in
the high bits), number of cached bits, and the latched first error. -/
structure LWBitsWriter (σ : Type) where
  w : σ
  cache : Nat
  cacheLen : Nat
  err : Option Err
  deriving DecidableEq, Repr

namespace LWBitsWriter

variable {σ : Type}

/-- Latched error accessor. -/
def Err' (st : LWBitsWriter σ) : Option Err := st.err

/-- Flushes one byte to the sink unless an error is already latched; a sink
error is recorded as the latched error. -/
def flushBsCache (wr : Sink σ) (st : LWBitsWriter σ) (b : Nat) : LWBitsWriter σ :=
  if st.err = none then
    let r := wr st.w [b]
    { st with w := r.1, err := r.2.map .sinkErr }
  else st

/-- Writes a single bit into the cache, flushing when the cache fills. -/
def WriteBit (wr : Sink σ) (st : LWBitsWriter σ) (bit : Bool) : LWBitsWriter σ :=
  let cache := if bit then st.cache ||| (1 <<< (7 - st.cacheLen)) else st.cache
  let cacheLen := st.cacheLen + 1
  if cacheLen = 8 then
    let st := flushBsCache wr { st with cache := cache, cacheLen := cacheLen } cache
    { st with cacheLen := 0, cache := 0 }
  else { st with cache := cache, cacheLen := cacheLen }

/-- Loop body of `WriteBits`; the fuel equals the initial `n`, which bounds
the number of iterations because every iteration consumes at least one bit
while the cache invariant (`cacheLen < 8`) holds (outside the invariant Go
loops forever; the model returns the state unchanged). -/
def writeBitsAux (wr : Sink σ) : Nat → Nat → Nat → LWBitsWriter σ → LWBitsWriter σ
  | 0, _, _, st => st
  | fuel + 1, n, toWrite, st =>
    if n = 0 then st
    else if st.cacheLen = 0 then
      if 8 ≤ n then
        writeBitsAux wr fuel (n - 8) toWrite
          (flushBsCache wr st ((toWrite >>> (n - 8)) % 256))
      else { st with cacheLen := n, cache := (toWrite <<< (8 - n)) % 256 }
    else
      let free := 8 - st.cacheLen
      let m := min n free
      let cache :=
        if n ≤ free then st.cache ||| ((toWrite <<< (free - m)) % 256)
        else st.cache ||| ((toWrite >>> (n - m)) % 256)
      let cacheLen := st.cacheLen + m
      if cacheLen = 8 then
        let st := flushBsCache wr { st with cache := cache, cacheLen := cacheLen } cache
        writeBitsAux wr fuel (n - m) toWrite { st with cacheLen := 0, cache := 0 }
      else
        writeBitsAux wr fuel (n - m) toWrite { st with cache := cache, cacheLen := cacheLen }

/-- Writes the low `n` bits of `toWrite`, MSB-first (`1 ≤ n ≤ 64` at every
call site); the value is first masked to `n` bits as in the source. -/
def WriteBits (wr : Sink σ) (st : LWBitsWriter σ) (toWrite : Nat) (n : Nat) :
    LWBitsWriter σ :=
  writeBitsAux wr n n (toWrite &&& (2 ^ n - 1)) st

/-- Writes one byte (the argument is a Go `uint8`, hence masked). -/
def WriteByte (wr : Sink σ) (st : LWBitsWriter σ) (b : Nat) : LWBitsWriter σ :=
  let b := b % 256
  if st.cacheLen = 0 then flushBsCache wr st b
  else
    flushBsCache wr { st with cache := (b <<< (8 - st.cacheLen)) % 256 }
      (st.cache ||| (b >>> st.cacheLen))

/-- Writes a 16-bit big-endian value. -/
def WriteUint16 (wr : Sink σ) (st : LWBitsWriter σ) (v : Nat) : LWBitsWriter σ :=
  WriteBits wr st v 16

/-- Writes a 32-bit big-endian value. -/
def WriteUint32 (wr : Sink σ) (st : LWBitsWriter σ) (v : Nat) : LWBitsWriter σ :=
  WriteBits wr st v 32

/-- Writes a byte slice: fast path straight to the sink when the cache is
byte-aligned, byte-at-a-time otherwise (elements are Go bytes, masked). -/
def WriteSlice (wr : Sink σ) (st : LWBitsWriter σ) (l : List Nat) : LWBitsWriter σ :=
  if l.isEmpty then st
  else if st.cacheLen ≠ 0 then
    l.foldl (fun st b => WriteByte wr st b) st
  else if st.err = none then
    let r := wr st.w (l.map (· % 256))
    { st with w := r.1, err := r.2.map .sinkErr }
  else st

end LWBitsWriter

/-- The pure list sink used for serialization proofs: appends and never
fails. -/
def listSink : Sink (List Nat) := fun s l => (s ++ l, none)

/-- A fresh byte-aligned writer over the pure list sink. -/
def freshW : LWBitsWriter (List Nat) := { w := [], cache := 0, cacheLen := 0, err := none }

/-! ### CRC-32 (first half of `crc32.go`) -/

/-- Initial register value of the MPEG-2 CRC-32. -/
def crc32Polynomial : Nat := 0xffffffff

/-- One step of the table-free CRC-32 update: the table entry
`tableCRC32[i]` is itself computed by the standard 8-fold polynomial
shift, matching the precomputed table of the source. -/
def crc32TableEntry (i : Nat) : Nat :=
  Nat.rec (i <<< 24)
    (fun _ acc => if acc &&& 0x80000000 ≠ 0 then ((acc <<< 1) ^^^ 0x04c11db7) % 2 ^ 32
      else (acc <<< 1) % 2 ^ 32) 8

/-- CRC-32 update over a byte list. -/
def updateCRC32 (crc : Nat) (bs : List Nat) : Nat :=
  bs.foldl (fun crc b => (((crc <<< 8) % 2 ^ 32) ^^^ crc32TableEntry (((crc >>> 24) ^^^ b) &&& 0xff))) crc

/-- CRC-32 of a byte list (initial register all-ones). -/
def computeCRC32 (bs : List Nat) : Nat := updateCRC32 crc32Polynomial bs

/-! ### Packet data model (`packet.go`) -/

/-- Scrambling controls and size constants. -/
def MpegTsPacketSize : Nat := 188

/-- Packet header size in bytes. -/
def mpegTsPacketHeaderSize : Nat := 3

/-- PCR wire size in bytes. -/
def pcrBytesSize : Nat := 6

/-- Sync byte value. Modelled from the spec: the constant `syncByte` is
declared outside the provided sources; the spec and the error name fix it
as 0x47. -/
def syncByte : Nat := 0x47

/-- Byte length of a PTS/DTS encoding. Modelled from the spec: the
constant is declared outside the provided sources; the spec fixes the
seamless-splice field at 40 bits. -/
def ptsOrDTSByteLength : Nat := 5

/-- Clock reference: 33-bit base plus 9-bit extension. Modelled from the
spec: the structure is declared outside the provided sources
(section 3, ClockReference). -/
structure ClockReference where
  Base : Int
  Extension : Int
  deriving DecidableEq, Repr

/-- Constructor of a clock reference. Modelled from the spec: pairs the
base and extension values. -/
def newClockReference (base ext : Int) : ClockReference :=
  { Base := base, Extension := ext }

/-- Packet header (3 bytes after the sync byte). -/
structure PacketHeader where
  ContinuityCounter : Nat
  HasAdaptationField : Bool
  HasPayload : Bool
  PayloadUnitStartIndicator : Bool
  PID : Nat
  TransportErrorIndicator : Bool
  TransportPriority : Bool
  TransportScramblingControl : Nat
  deriving DecidableEq, Repr

/-- Packet adaptation extension field. -/
structure PacketAdaptationExtensionField where
  DTSNextAccessUnit : Option ClockReference
  HasLegalTimeWindow : Bool
  HasPiecewiseRate : Bool
  HasSeamlessSplice : Bool
  LegalTimeWindowIsValid : Bool
  LegalTimeWindowOffset : Nat
  Length : Nat
  PiecewiseRate : Nat
  SpliceType : Nat
  deriving DecidableEq, Repr

/-- The zero value of the adaptation extension field (Go `&T{}`). -/
def PacketAdaptationExtensionField.empty : PacketAdaptationExtensionField :=
  { DTSNextAccessUnit := none, HasLegalTimeWindow := false, HasPiecewiseRate := false,
    HasSeamlessSplice := false, LegalTimeWindowIsValid := false, LegalTimeWindowOffset := 0,
    Length := 0, PiecewiseRate := 0, SpliceType := 0 }

/-- Packet adaptation field. -/
structure PacketAdaptationField where
  AdaptationExtensionField : Option PacketAdaptationExtensionField
  OPCR : Option ClockReference
  PCR : Option ClockReference
  TransportPrivateData : List Nat
  TransportPrivateDataLength : Int
  Length : Nat
  StuffingLength : Int
  SpliceCountdown : Int
  IsOneByteStuffing : Bool
  RandomAccessIndicator : Bool
  DiscontinuityIndicator : Bool
  ElementaryStreamPriorityIndicator : Bool
  HasAdaptationExtensionField : Bool
  HasOPCR : Bool
  HasPCR : Bool
  HasTransportPrivateData : Bool
  HasSplicingCountdown : Bool
  deriving DecidableEq, Repr

/-- The zero value of the adaptation field (Go `&PacketAdaptationField{}`). -/
def PacketAdaptationField.empty : PacketAdaptationField :=
  { AdaptationExtensionField := none, OPCR := none, PCR := none,
    TransportPrivateData := [], TransportPrivateDataLength := 0, Length := 0,
    StuffingLength := 0, SpliceCountdown := 0, IsOneByteStuffing := false,
    RandomAccessIndicator := false, DiscontinuityIndicator := false,
    ElementaryStreamPriorityIndicator := false, HasAdaptationExtensionField := false,
    HasOPCR := false, HasPCR := false, HasTransportPrivateData := false,
    HasSplicingCountdown := false }

/-- A transport packet. -/
structure Packet where
  AdaptationField : Option PacketAdaptationField
  Header : PacketHeader
  Payload : List Nat
  deriving DecidableEq, Repr

/-! ### Packet parsing -/

/-- Parses a program clock reference: 33 bits base, 6 reserved, 9 extension. -/
def parsePCR (it : BytesIterator) : PRes ClockReference :=
  pbind (it.NextBytesNoCopy 6) fun bs it =>
  let pcr := (bs.getD 0 0) <<< 40 ||| (bs.getD 1 0) <<< 32 ||| (bs.getD 2 0) <<< 24 |||
    (bs.getD 3 0) <<< 16 ||| (bs.getD 4 0) <<< 8 ||| bs.getD 5 0
  (.ok (newClockReference (Int.ofNat (pcr >>> 15)) (Int.ofNat (pcr &&& 0x1ff))), it)

/-- Parses a PTS or DTS. Modelled from the spec: the function is declared
outside the provided sources; layout per the source comment on
`DTSNextAccessUnit` (4-bit prefix, then 3 bits, marker, 15 bits, marker,
15 bits, marker = 33 data bits over 5 bytes). -/
def parsePTSOrDTS (it : BytesIterator) : PRes ClockReference :=
  pbind (it.NextBytes 5) fun bs it =>
  let base := (((bs.getD 0 0) >>> 1) &&& 0x7) <<< 30 ||| (bs.getD 1 0) <<< 22 |||
    ((bs.getD 2 0) >>> 1) <<< 15 ||| (bs.getD 3 0) <<< 7 ||| (bs.getD 4 0) >>> 1
  (.ok (newClockReference (Int.ofNat base) 0), it)

/-- Parses the packet header. -/
def parsePacketHeader (it : BytesIterator) : PRes PacketHeader :=
  pbind (it.NextBytesNoCopy 3) fun bs it =>
  (.ok {
    ContinuityCounter := (bs.getD 2 0) &&& 0xf
    HasAdaptationField := (bs.getD 2 0) &&& 0x20 > 0
    HasPayload := (bs.getD 2 0) &&& 0x10 > 0
    PayloadUnitStartIndicator := (bs.getD 0 0) &&& 0x40 > 0
    PID := ((bs.getD 0 0) &&& 0x1f) <<< 8 ||| bs.getD 1 0
    TransportErrorIndicator := (bs.getD 0 0) &&& 0x80 > 0
    TransportPriority := (bs.getD 0 0) &&& 0x20 > 0
    TransportScramblingControl := (bs.getD 2 0) >>> 6 &&& 0x3 }, it)

/-- Parses the adaptation extension field body after its length byte, when
that length is positive. -/
def parseAFExtensionBody (afeLength : Nat) (it : BytesIterator) :
    PRes PacketAdaptationExtensionField :=
  let afe0 := { PacketAdaptationExtensionField.empty with Length := afeLength }
  if 0 < afeLength then
    pbind it.NextByte fun b it =>
    let afe1 := { afe0 with
      HasLegalTimeWindow := b &&& 0x80 > 0
      HasPiecewiseRate := b &&& 0x40 > 0
      HasSeamlessSplice := b &&& 0x20 > 0 }
    pbind (optParse afe1.HasLegalTimeWindow (fun it =>
        pbind (it.NextBytesNoCopy 2) fun bs it =>
        (.ok (((bs.getD 0 0) &&& 0x80 > 0 : Bool), ((bs.getD 0 0) &&& 0x7f) <<< 8 ||| bs.getD 1 0), it)) it)
      fun ltw it =>
    let afe2 := match ltw with
      | some p => { afe1 with LegalTimeWindowIsValid := p.1, LegalTimeWindowOffset := p.2 }
      | none => afe1
    pbind (optParse afe2.HasPiecewiseRate (fun it =>
        pbind (it.NextBytesNoCopy 3) fun bs it =>
        (.ok (((bs.getD 0 0) &&& 0x3f) <<< 16 ||| (bs.getD 1 0) <<< 8 ||| bs.getD 2 0), it)) it)
      fun pw it =>
    let afe3 := match pw with
      | some r => { afe2 with PiecewiseRate := r }
      | none => afe2
    if afe3.HasSeamlessSplice then
      pbind it.NextByte fun b it =>
      let afe4 := { afe3 with SpliceType := (b &&& 0xf0) >>> 4 }
      let it := it.Skip (-1)
      pbind (parsePTSOrDTS it) fun cr it =>
      (.ok { afe4 with DTSNextAccessUnit := some cr }, it)
    else (.ok afe3, it)
  else (.ok afe0, it)

/-- Parses the flag byte and the flag-gated fields of an adaptation field
whose declared length is positive. -/
def parseAFBody (length : Nat) (it : BytesIterator) : PRes PacketAdaptationField :=
  pbind it.NextByte fun b it =>
  let a1 := { PacketAdaptationField.empty with
    Length := length
    DiscontinuityIndicator := b &&& 0x80 > 0
    RandomAccessIndicator := b &&& 0x40 > 0
    ElementaryStreamPriorityIndicator := b &&& 0x20 > 0
    HasPCR := b &&& 0x10 > 0
    HasOPCR := b &&& 0x08 > 0
    HasSplicingCountdown := b &&& 0x04 > 0
    HasTransportPrivateData := b &&& 0x02 > 0
    HasAdaptationExtensionField := b &&& 0x01 > 0 }
  pbind (optParse a1.HasPCR parsePCR it) fun pcr it =>
  let a2 := { a1 with PCR := pcr }
  pbind (optParse a2.HasOPCR parsePCR it) fun opcr it =>
  let a3 := { a2 with OPCR := opcr }
  pbind (optParse a3.HasSplicingCountdown (fun it =>
      pbind it.NextByte fun b it => (.ok (Int.ofNat b), it)) it) fun sc it =>
  let a4 := match sc with
    | some v => { a3 with SpliceCountdown := v }
    | none => a3
  pbind (optParse a4.HasTransportPrivateData (fun it =>
      pbind it.NextByte fun b it =>
      let tpdl : Int := Int.ofNat b
      pbind (optParse (decide (0 < tpdl)) (fun it => it.NextBytes tpdl.toNat) it) fun d it =>
      (.ok (tpdl, d.getD []), it)) it) fun tpd it =>
  let a5 := match tpd with
    | some p => { a4 with TransportPrivateDataLength := p.1, TransportPrivateData := p.2 }
    | none => a4
  pbind (optParse a5.HasAdaptationExtensionField (fun it =>
      pbind it.NextByte fun b it => parseAFExtensionBody b it) it) fun afe it =>
  (.ok { a5 with AdaptationExtensionField := afe }, it)

/-- Parses the packet adaptation field: length byte, then (when positive)
the flag byte and the gated fields; the stuffing length is the declared
length minus the bytes consumed after the length byte, with no
validation. -/
def parsePacketAdaptationField (it : BytesIterator) : PRes PacketAdaptationField :=
  pbind it.NextByte fun b it =>
  let length := b
  let afStartOffset := it.Offset
  pbind (if 0 < length then parseAFBody length it
    else (.ok { PacketAdaptationField.empty with Length := length }, it)) fun a it =>
  (.ok { a with StuffingLength := (length : Int) - ((it.Offset : Int) - (afStartOffset : Int)) }, it)

/-- Returns the payload offset; the `none` adaptation-field case with the
flag set is unreachable from `parsePacket` (Go would dereference nil). -/
def payloadOffset (offsetStart : Nat) (h : PacketHeader)
    (a : Option PacketAdaptationField) : Nat :=
  offsetStart + 3 + (if h.HasAdaptationField then 1 + (match a with
    | some af => af.Length
    | none => 0) else 0)

/-- Evaluates the optional caller-supplied skip predicate. -/
def skipMatch (s : Option (Packet → Bool)) (p : Packet) : Bool :=
  match s with
  | some f => f p
  | none => false

/-- Parses a packet: sync byte, 188-byte framing seek, header, optional
adaptation field, skip predicate, payload. -/
def parsePacket (it : BytesIterator) (s : Option (Packet → Bool)) : PRes Packet :=
  pbind it.NextByte fun b it =>
  if b ≠ syncByte then (.error .syncByteMissing, it)
  else
    let it := it.Seek ((it.Len : Int) - (MpegTsPacketSize : Int) + 1)
    let offsetStart := it.Offset
    pbind (parsePacketHeader it) fun h it =>
    pbind (optParse h.HasAdaptationField parsePacketAdaptationField it) fun af it =>
    let p : Packet := { Header := h, AdaptationField := af, Payload := [] }
    if skipMatch s p then (.error .skippedPacket, it)
    else if h.HasPayload then
      let it := it.Seek (payloadOffset offsetStart h af : Nat)
      (.ok { p with Payload := it.Dump }, it)
    else (.ok p, it)

/-! ### Packet serialization -/

section PacketWrite

variable {σ : Type}

open LWBitsWriter

/-- Result of a writing step: byte count or error, plus writer state. -/
abbrev WRes (σ : Type) := (Except Err Nat) × LWBitsWriter σ

/-- Turns the writer's latched error state into the Go `(n, w.Err())`
return convention. -/
def retW (st : LWBitsWriter σ) (n : Nat) : WRes σ :=
  match st.err with
  | some e => (.error e, st)
  | none => (.ok n, st)

/-- Writes a PCR: 33 bits base, 6 reserved bits, 9 bits extension. -/
def writePCR (wr : Sink σ) (st : LWBitsWriter σ) (cr : ClockReference) : WRes σ :=
  let st := WriteBits wr st ((cr.Base.emod (2 ^ 64)).toNat) 33
  let st := WriteBits wr st 0xff 6
  let st := WriteBits wr st ((cr.Extension.emod (2 ^ 64)).toNat) 9
  retW st pcrBytesSize

/-- Writes a PTS or DTS. Modelled from the spec: declared outside the
provided sources; 4-bit prefix then the 36-bit marker-bit layout, 5 bytes
in total. -/
def writePTSOrDTS (wr : Sink σ) (st : LWBitsWriter σ) (flag : Nat)
    (cr : ClockReference) : WRes σ :=
  let base := (cr.Base.emod (2 ^ 64)).toNat
  let st := WriteBits wr st flag 4
  let st := WriteBits wr st (base >>> 30) 3
  let st := WriteBit wr st true
  let st := WriteBits wr st (base >>> 15) 15
  let st := WriteBit wr st true
  let st := WriteBits wr st base 15
  let st := WriteBit wr st true
  retW st ptsOrDTSByteLength

/-- Writes the packet header: 24 bits after the sync byte. -/
def writePacketHeader (wr : Sink σ) (st : LWBitsWriter σ) (h : PacketHeader) : WRes σ :=
  let st := WriteBit wr st h.TransportErrorIndicator
  let st := WriteBit wr st h.PayloadUnitStartIndicator
  let st := WriteBit wr st h.TransportPriority
  let st := WriteBits wr st h.PID 13
  let st := WriteBits wr st h.TransportScramblingControl 2
  let st := WriteBit wr st h.HasAdaptationField
  let st := WriteBit wr st h.HasPayload
  let st := WriteBits wr st h.ContinuityCounter 4
  retW st mpegTsPacketHeaderSize

/-- Length of the adaptation extension field (excluding its length byte). -/
def calcPacketAdaptationFieldExtensionLength
    (afe : PacketAdaptationExtensionField) : Nat :=
  (1 + (if afe.HasLegalTimeWindow then 2 else 0) +
    (if afe.HasPiecewiseRate then 3 else 0) +
    (if afe.HasSeamlessSplice then ptsOrDTSByteLength else 0)) % 256

/-- Writes the adaptation extension field. -/
def writePacketAdaptationFieldExtension (wr : Sink σ) (st : LWBitsWriter σ)
    (afe : PacketAdaptationExtensionField) : WRes σ :=
  let length := calcPacketAdaptationFieldExtensionLength afe
  let st := WriteByte wr st length
  let st := WriteBit wr st afe.HasLegalTimeWindow
  let st := WriteBit wr st afe.HasPiecewiseRate
  let st := WriteBit wr st afe.HasSeamlessSplice
  let st := WriteBits wr st 0xff 5
  let bytesWritten := 2
  let p1 : Nat × LWBitsWriter σ :=
    if afe.HasLegalTimeWindow then
      let st := WriteBit wr st afe.LegalTimeWindowIsValid
      let st := WriteBits wr st afe.LegalTimeWindowOffset 15
      (bytesWritten + 2, st)
    else (bytesWritten, st)
  let bytesWritten := p1.1
  let st := p1.2
  let p2 : Nat × LWBitsWriter σ :=
    if afe.HasPiecewiseRate then
      let st := WriteBits wr st 0xff 2
      let st := WriteBits wr st afe.PiecewiseRate 22
      (bytesWritten + 3, st)
    else (bytesWritten, st)
  let bytesWritten := p2.1
  let st := p2.2
  if afe.HasSeamlessSplice then
    match afe.DTSNextAccessUnit with
    | none => (.error .nilDeref, st)
    | some cr =>
      match writePTSOrDTS wr st afe.SpliceType cr with
      | (.error e, st) => (.error e, st)
      | (.ok n, st) => retW st (bytesWritten + n)
  else retW st bytesWritten

/-- Computed adaptation-field length byte (`uint8` arithmetic, may wrap). -/
def calcPacketAdaptationFieldLength (af : PacketAdaptationField) : Nat :=
  (1 + (if af.HasPCR then pcrBytesSize else 0) +
    (if af.HasOPCR then pcrBytesSize else 0) +
    (if af.HasSplicingCountdown then 1 else 0) +
    (if af.HasTransportPrivateData then 1 + af.TransportPrivateData.length % 256 else 0) +
    (if af.HasAdaptationExtensionField then
      1 + (match af.AdaptationExtensionField with
        | some afe => calcPacketAdaptationFieldExtensionLength afe
        | none => 0) else 0) +
    (af.StuffingLength.emod 256).toNat) % 256

/-- Writes `n` stuffing bytes 0xFF. -/
def padFF (wr : Sink σ) : Nat → LWBitsWriter σ → LWBitsWriter σ
  | 0, st => st
  | k + 1, st => padFF wr k (WriteByte wr st 0xff)

/-- Writes the adaptation field; the one-byte stuffing mode emits a single
zero byte. A missing extension-field value under its flag is the Go nil
dereference inside the length computation, raised here before any write. -/
def writePacketAdaptationField (wr : Sink σ) (st : LWBitsWriter σ)
    (af : PacketAdaptationField) : WRes σ :=
  if af.IsOneByteStuffing then (.ok 1, WriteByte wr st 0)
  else if af.HasAdaptationExtensionField ∧ af.AdaptationExtensionField = none then
    (.error .nilDeref, st)
  else
    let length := calcPacketAdaptationFieldLength af
    let st := WriteByte wr st length
    let st := WriteBit wr st af.DiscontinuityIndicator
    let st := WriteBit wr st af.RandomAccessIndicator
    let st := WriteBit wr st af.ElementaryStreamPriorityIndicator
    let st := WriteBit wr st af.HasPCR
    let st := WriteBit wr st af.HasOPCR
    let st := WriteBit wr st af.HasSplicingCountdown
    let st := WriteBit wr st af.HasTransportPrivateData
    let st := WriteBit wr st af.HasAdaptationExtensionField
    let bytesWritten := 2
    let r1 : WRes σ :=
      if af.HasPCR then
        match af.PCR with
        | none => (.error .nilDeref, st)
        | some cr =>
          match writePCR wr st cr with
          | (.error e, st) => (.error e, st)
          | (.ok n, st) => (.ok (bytesWritten + n), st)
      else (.ok bytesWritten, st)
    match r1 with
    | (.error e, st) => (.error e, st)
    | (.ok bytesWritten, st) =>
    let r2 : WRes σ :=
      if af.HasOPCR then
        match af.OPCR with
        | none => (.error .nilDeref, st)
        | some cr =>
          match writePCR wr st cr with
          | (.error e, st) => (.error e, st)
          | (.ok n, st) => (.ok (bytesWritten + n), st)
      else (.ok bytesWritten, st)
    match r2 with
    | (.error e, st) => (.error e, st)
    | (.ok bytesWritten, st) =>
    let p3 : Nat × LWBitsWriter σ :=
      if af.HasSplicingCountdown then
        (bytesWritten + 1, WriteByte wr st (af.SpliceCountdown.emod 256).toNat)
      else (bytesWritten, st)
    let bytesWritten := p3.1
    let st := p3.2
    let p4 : Nat × LWBitsWriter σ :=
      if af.HasTransportPrivateData then
        let st := WriteByte wr st (af.TransportPrivateDataLength.emod 256).toNat
        let st := if 0 < af.TransportPrivateDataLength then
            WriteSlice wr st af.TransportPrivateData
          else st
        (bytesWritten + 1 + af.TransportPrivateData.length, st)
      else (bytesWritten, st)
    let bytesWritten := p4.1
    let st := p4.2
    let r5 : WRes σ :=
      if af.HasAdaptationExtensionField then
        match af.AdaptationExtensionField with
        | none => (.error .nilDeref, st)
        | some afe =>
          match writePacketAdaptationFieldExtension wr st afe with
          | (.error e, st) => (.error e, st)
          | (.ok n, st) => (.ok (bytesWritten + n), st)
      else (.ok bytesWritten, st)
    match r5 with
    | (.error e, st) => (.error e, st)
    | (.ok bytesWritten, st) =>
    let st := padFF wr af.StuffingLength.toNat st
    retW st (bytesWritten + af.StuffingLength.toNat)

/-- Writes a packet: sync byte, header, optional adaptation field, payload,
0xFF padding to the target size; fails with `payloadOverflow` when the
payload does not fit. -/
def writePacket (wr : Sink σ) (st : LWBitsWriter σ) (p : Packet)
    (targetPacketSize : Nat) : WRes σ :=
  let st := WriteByte wr st syncByte
  let written := 1
  match writePacketHeader wr st p.Header with
  | (.error e, st) => (.error e, st)
  | (.ok n, st) =>
  let written := written + n
  match (if p.Header.HasAdaptationField then
      match p.AdaptationField with
      | none => (.error .nilDeref, st)
      | some af => writePacketAdaptationField wr st af
    else (.ok 0, st) : WRes σ) with
  | (.error e, st) => (.error e, st)
  | (.ok n, st) =>
  let written := written + n
  if (targetPacketSize : Int) - (written : Int) < (p.Payload.length : Int) then
    (.error .payloadOverflow, st)
  else
    let q : Nat × LWBitsWriter σ :=
      if p.Header.HasPayload then (written + p.Payload.length, WriteSlice wr st p.Payload)
      else (written, st)
    let written := q.1
    let st := q.2
    let pad := targetPacketSize - written
    let st := padFF wr pad st
    retW st (written + pad)

/-- Builds a stuffing-only adaptation field for a byte budget. -/
def newStuffingAdaptationField (bytesToStuff : Nat) : PacketAdaptationField :=
  if bytesToStuff = 1 then { PacketAdaptationField.empty with IsOneByteStuffing := true }
  else { PacketAdaptationField.empty with StuffingLength := (bytesToStuff : Int) - 2 }

end PacketWrite

/-! ### Descriptor data model (`descriptor.go`)

The descriptor tags of the source (hexadecimal constants): AC3 0x6a,
AVCVideo 0x28, Component 0x50, Content 0x54, DataStreamAlignment 0x06,
EnhancedAC3 0x7a, ExtendedEvent 0x4e, Extension 0x7f,
ISO639LanguageAndAudioType 0x0a, LocalTimeOffset 0x58,
MaximumBitrate 0x0e, NetworkName 0x40, ParentalRating 0x55,
PrivateDataIndicator 0x0f, PrivateDataSpecifier 0x5f, Registration 0x05,
Service 0x48, ShortEvent 0x4d, StreamIdentifier 0x52, Subtitling 0x59,
Teletext 0x56, VBIData 0x45, VBITeletext 0x46; extension sub-tag
SupplementaryAudio 0x06; VBI data service ids: closed captioning 0x06,
EBU teletext 0x01, inverted teletext 0x02, monochrome 4:2:2 0x07,
VPS 0x04, WSS 0x05. -/

/-- AC3 descriptor tag. -/
def DescriptorTagAC3 : Nat := 0x6a

/-- AVC video descriptor tag. -/
def DescriptorTagAVCVideo : Nat := 0x28

/-- Component descriptor tag. -/
def DescriptorTagComponent : Nat := 0x50

/-- Content descriptor tag. -/
def DescriptorTagContent : Nat := 0x54

/-- Data stream alignment descriptor tag. -/
def DescriptorTagDataStreamAlignment : Nat := 0x6

/-- Enhanced AC3 descriptor tag. -/
def DescriptorTagEnhancedAC3 : Nat := 0x7a

/-- Extended event descriptor tag. -/
def DescriptorTagExtendedEvent : Nat := 0x4e

/-- Extension descriptor tag. -/
def DescriptorTagExtension : Nat := 0x7f

/-- ISO639 language and audio type descriptor tag. -/
def DescriptorTagISO639LanguageAndAudioType : Nat := 0xa

/-- Local time offset descriptor tag. -/
def DescriptorTagLocalTimeOffset : Nat := 0x58

/-- Maximum bitrate descriptor tag. -/
def DescriptorTagMaximumBitrate : Nat := 0xe

/-- Network name descriptor tag. -/
def DescriptorTagNetworkName : Nat := 0x40

/-- Parental rating descriptor tag. -/
def DescriptorTagParentalRating : Nat := 0x55

/-- Private data indicator descriptor tag. -/
def DescriptorTagPrivateDataIndicator : Nat := 0xf

/-- Private data specifier descriptor tag. -/
def DescriptorTagPrivateDataSpecifier : Nat := 0x5f

/-- Registration descriptor tag. -/
def DescriptorTagRegistration : Nat := 0x5

/-- Service descriptor tag. -/
def DescriptorTagService : Nat := 0x48

/-- Short event descriptor tag. -/
def DescriptorTagShortEvent : Nat := 0x4d

/-- Stream identifier descriptor tag. -/
def DescriptorTagStreamIdentifier : Nat := 0x52

/-- Subtitling descriptor tag. -/
def DescriptorTagSubtitling : Nat := 0x59

/-- Teletext descriptor tag. -/
def DescriptorTagTeletext : Nat := 0x56

/-- VBI data descriptor tag. -/
def DescriptorTagVBIData : Nat := 0x45

/-- VBI teletext descriptor tag. -/
def DescriptorTagVBITeletext : Nat := 0x46

/-- Supplementary audio extension sub-tag. -/
def DescriptorTagExtensionSupplementaryAudio : Nat := 0x6

/-- VBI data service id: closed captioning. -/
def VBIDataServiceIDClosedCaptioning : Nat := 0x6

/-- VBI data service id: EBU teletext. -/
def VBIDataServiceIDEBUTeletext : Nat := 0x1

/-- VBI data service id: inverted teletext. -/
def VBIDataServiceIDInvertedTeletext : Nat := 0x2

/-- VBI data service id: monochrome 4:2:2 samples. -/
def VBIDataServiceIDMonochrome442Samples : Nat := 0x7

/-- VBI data service id: VPS. -/
def VBIDataServiceIDVPS : Nat := 0x4

/-- VBI data service id: WSS. -/
def VBIDataServiceIDWSS : Nat := 0x5

/-- A DVB duration in minutes. Modelled from the spec: the codec lives in
the external collaborator `dvb.go` (two BCD bytes HH MM, section 4.4);
the core only consumes/produces the contracted byte shape, so the value
is modelled as its wire bytes. -/
structure DVBDuration where
  bytes : List Nat
  deriving DecidableEq, Repr

/-- A DVB time. Modelled from the spec: external collaborator `dvb.go`
(two MJD bytes plus three BCD bytes HH MM SS); modelled as its wire
bytes. -/
structure DVBTime where
  bytes : List Nat
  deriving DecidableEq, Repr

/-- Parses a DVB duration in minutes (2 bytes). Modelled from the spec:
external collaborator codec, kept as the contracted byte shape. -/
def parseDVBDurationMinutes (it : BytesIterator) : PRes DVBDuration :=
  pbind (it.NextBytes 2) fun bs it => (.ok ⟨bs⟩, it)

/-- Parses a DVB time (5 bytes). Modelled from the spec: external
collaborator codec, kept as the contracted byte shape. -/
def parseDVBTime (it : BytesIterator) : PRes DVBTime :=
  pbind (it.NextBytes 5) fun bs it => (.ok ⟨bs⟩, it)

/-- AC3 descriptor. -/
structure DescriptorAC3 where
  AdditionalInfo : List Nat
  ASVC : Nat
  BSID : Nat
  ComponentType : Nat
  HasASVC : Bool
  HasBSID : Bool
  HasComponentType : Bool
  HasMainID : Bool
  MainID : Nat
  deriving DecidableEq, Repr

/-- AVC video descriptor. -/
structure DescriptorAVCVideo where
  AVC24HourPictureFlag : Bool
  AVCStillPresent : Bool
  CompatibleFlags : Nat
  ConstraintSet0Flag : Bool
  ConstraintSet1Flag : Bool
  ConstraintSet2Flag : Bool
  LevelIDC : Nat
  ProfileIDC : Nat
  deriving DecidableEq, Repr

/-- Component descriptor. -/
structure DescriptorComponent where
  ComponentTag : Nat
  ComponentType : Nat
  ISO639LanguageCode : List Nat
  StreamContent : Nat
  StreamContentExt : Nat
  Text : List Nat
  deriving DecidableEq, Repr

/-- Content descriptor item. -/
structure DescriptorContentItem where
  ContentNibbleLevel1 : Nat
  ContentNibbleLevel2 : Nat
  UserByte : Nat
  deriving DecidableEq, Repr

/-- Content descriptor. -/
structure DescriptorContent where
  Items : List DescriptorContentItem
  deriving DecidableEq, Repr

/-- Data stream alignment descriptor. -/
structure DescriptorDataStreamAlignment where
  Type' : Nat
  deriving DecidableEq, Repr

/-- Enhanced AC3 descriptor. -/
structure DescriptorEnhancedAC3 where
  AdditionalInfo : List Nat
  ASVC : Nat
  BSID : Nat
  ComponentType : Nat
  HasASVC : Bool
  HasBSID : Bool
  HasComponentType : Bool
  HasMainID : Bool
  HasSubStream1 : Bool
  HasSubStream2 : Bool
  HasSubStream3 : Bool
  MainID : Nat
  MixInfoExists : Bool
  SubStream1 : Nat
  SubStream2 : Nat
  SubStream3 : Nat
  deriving DecidableEq, Repr

/-- Extended event descriptor item. -/
structure DescriptorExtendedEventItem where
  Content : List Nat
  Description : List Nat
  deriving DecidableEq, Repr

/-- Extended event descriptor. -/
structure DescriptorExtendedEvent where
  ISO639LanguageCode : List Nat
  Items : List DescriptorExtendedEventItem
  LastDescriptorNumber : Nat
  Number : Nat
  Text : List Nat
  deriving DecidableEq, Repr

/-- Supplementary audio extension descriptor. -/
structure DescriptorExtensionSupplementaryAudio where
  EditorialClassification : Nat
  HasLanguageCode : Bool
  LanguageCode : List Nat
  MixType : Bool
  PrivateData : List Nat
  deriving DecidableEq, Repr

/-- Extension descriptor: nested tag dispatch. -/
structure DescriptorExtension where
  SupplementaryAudio : Option DescriptorExtensionSupplementaryAudio
  Tag : Nat
  Unknown : Option (List Nat)
  deriving DecidableEq, Repr

/-- ISO639 language and audio type descriptor. -/
structure DescriptorISO639LanguageAndAudioType where
  Language : List Nat
  Type' : Nat
  deriving DecidableEq, Repr

/-- Local time offset descriptor item. -/
structure DescriptorLocalTimeOffsetItem where
  CountryCode : List Nat
  CountryRegionID : Nat
  LocalTimeOffset : DVBDuration
  LocalTimeOffsetPolarity : Bool
  NextTimeOffset : DVBDuration
  TimeOfChange : DVBTime
  deriving DecidableEq, Repr

/-- Local time offset descriptor. -/
structure DescriptorLocalTimeOffset where
  Items : List DescriptorLocalTimeOffsetItem
  deriving DecidableEq, Repr

/-- Maximum bitrate descriptor. -/
structure DescriptorMaximumBitrate where
  Bitrate : Nat
  deriving DecidableEq, Repr

/-- Network name descriptor. -/
structure DescriptorNetworkName where
  Name : List Nat
  deriving DecidableEq, Repr

/-- Parental rating descriptor item. -/
structure DescriptorParentalRatingItem where
  CountryCode : List Nat
  Rating : Nat
  deriving DecidableEq, Repr

/-- Minimum age of a parental rating item: undefined and user-defined
ratings yield 0, others rating plus 3. -/
def DescriptorParentalRatingItem.MinimumAge (d : DescriptorParentalRatingItem) : Int :=
  if d.Rating = 0 ∨ 0x10 < d.Rating then 0 else (d.Rating : Int) + 3

/-- Parental rating descriptor. -/
structure DescriptorParentalRating where
  Items : List DescriptorParentalRatingItem
  deriving DecidableEq, Repr

/-- Private data indicator descriptor. -/
structure DescriptorPrivateDataIndicator where
  Indicator : Nat
  deriving DecidableEq, Repr

/-- Private data specifier descriptor. -/
structure DescriptorPrivateDataSpecifier where
  Specifier : Nat
  deriving DecidableEq, Repr

/-- Registration descriptor. -/
structure DescriptorRegistration where
  AdditionalIdentificationInfo : List Nat
  FormatIdentifier : Nat
  deriving DecidableEq, Repr

/-- Service descriptor. -/
structure DescriptorService where
  Name : List Nat
  Provider : List Nat
  Type' : Nat
  deriving DecidableEq, Repr

/-- Short event descriptor. -/
structure DescriptorShortEvent where
  EventName : List Nat
  Language : List Nat
  Text : List Nat
  deriving DecidableEq, Repr

/-- Stream identifier descriptor. -/
structure DescriptorStreamIdentifier where
  ComponentTag : Nat
  deriving DecidableEq, Repr

/-- Subtitling descriptor item. -/
structure DescriptorSubtitlingItem where
  AncillaryPageID : Nat
  CompositionPageID : Nat
  Language : List Nat
  Type' : Nat
  deriving DecidableEq, Repr

/-- Subtitling descriptor. -/
structure DescriptorSubtitling where
  Items : List DescriptorSubtitlingItem
  deriving DecidableEq, Repr

/-- Teletext descriptor item. -/
structure DescriptorTeletextItem where
  Language : List Nat
  Magazine : Nat
  Page : Nat
  Type' : Nat
  deriving DecidableEq, Repr

/-- Teletext descriptor (also used for VBI teletext). -/
structure DescriptorTeletext where
  Items : List DescriptorTeletextItem
  deriving DecidableEq, Repr

/-- Unknown descriptor: original tag plus verbatim content. -/
structure DescriptorUnknown where
  Content : List Nat
  Tag : Nat
  deriving DecidableEq, Repr

/-- VBI data line descriptor. -/
structure DescriptorVBIDataDescriptor where
  FieldParity : Bool
  LineOffset : Nat
  deriving DecidableEq, Repr

/-- VBI data service. -/
structure DescriptorVBIDataService where
  DataServiceID : Nat
  Descriptors : List DescriptorVBIDataDescriptor
  deriving DecidableEq, Repr

/-- VBI data descriptor. -/
structure DescriptorVBIData where
  Services : List DescriptorVBIDataService
  deriving DecidableEq, Repr

/-- A descriptor: the shared tag/length envelope plus one nullable field
per recognised variant and the two fallbacks, mirroring the source
struct. -/
structure Descriptor where
  AC3 : Option DescriptorAC3
  AVCVideo : Option DescriptorAVCVideo
  Component : Option DescriptorComponent
  Content : Option DescriptorContent
  DataStreamAlignment : Option DescriptorDataStreamAlignment
  EnhancedAC3 : Option DescriptorEnhancedAC3
  ExtendedEvent : Option DescriptorExtendedEvent
  Extension : Option DescriptorExtension
  ISO639LanguageAndAudioType : Option DescriptorISO639LanguageAndAudioType
  Length : Nat
  LocalTimeOffset : Option DescriptorLocalTimeOffset
  MaximumBitrate : Option DescriptorMaximumBitrate
  NetworkName : Option DescriptorNetworkName
  ParentalRating : Option DescriptorParentalRating
  PrivateDataIndicator : Option DescriptorPrivateDataIndicator
  PrivateDataSpecifier : Option DescriptorPrivateDataSpecifier
  Registration : Option DescriptorRegistration
  Service : Option DescriptorService
  ShortEvent : Option DescriptorShortEvent
  StreamIdentifier : Option DescriptorStreamIdentifier
  Subtitling : Option DescriptorSubtitling
  Tag : Nat
  Teletext : Option DescriptorTeletext
  Unknown : Option DescriptorUnknown
  UserDefined : List Nat
  VBIData : Option DescriptorVBIData
  VBITeletext : Option DescriptorTeletext
  deriving DecidableEq, Repr

/-- A descriptor with only the envelope set (the Go zero value plus tag
and length). -/
def Descriptor.empty : Descriptor :=
  { AC3 := none, AVCVideo := none, Component := none, Content := none,
    DataStreamAlignment := none, EnhancedAC3 := none, ExtendedEvent := none,
    Extension := none, ISO639LanguageAndAudioType := none, Length := 0,
    LocalTimeOffset := none, MaximumBitrate := none, NetworkName := none,
    ParentalRating := none, PrivateDataIndicator := none,
    PrivateDataSpecifier := none, Registration := none, Service := none,
    ShortEvent := none, StreamIdentifier := none, Subtitling := none,
    Tag := 0, Teletext := none, Unknown := none, UserDefined := [],
    VBIData := none, VBITeletext := none }

/-! ### Descriptor parsing

Source loops of the form `for i.Offset() < offsetEnd` are embedded as
fuel-indexed recursions; each loop's fuel is `offsetEnd - offset` at
entry, which bounds the iteration count because every iteration of every
such loop consumes at least one byte on success. -/

/-- Parses an AC3 descriptor. -/
def newDescriptorAC3 (it : BytesIterator) (offsetEnd : Nat) : PRes DescriptorAC3 :=
  pbind it.NextByte fun b it =>
  let d0 : DescriptorAC3 :=
    { AdditionalInfo := [], ASVC := 0, BSID := 0, ComponentType := 0,
      HasASVC := b &&& 0x10 > 0, HasBSID := b &&& 0x40 > 0,
      HasComponentType := b &&& 0x80 > 0, HasMainID := b &&& 0x20 > 0, MainID := 0 }
  pbind (optParse d0.HasComponentType BytesIterator.NextByte it) fun ct it =>
  let d1 := match ct with | some v => { d0 with ComponentType := v } | none => d0
  pbind (optParse d1.HasBSID BytesIterator.NextByte it) fun bi it =>
  let d2 := match bi with | some v => { d1 with BSID := v } | none => d1
  pbind (optParse d2.HasMainID BytesIterator.NextByte it) fun mi it =>
  let d3 := match mi with | some v => { d2 with MainID := v } | none => d2
  pbind (optParse d3.HasASVC BytesIterator.NextByte it) fun av it =>
  let d4 := match av with | some v => { d3 with ASVC := v } | none => d3
  if it.offset < offsetEnd then
    pbind (it.NextBytes (offsetEnd - it.offset)) fun info it =>
    (.ok { d4 with AdditionalInfo := info }, it)
  else (.ok d4, it)

/-- Parses an AVC video descriptor. -/
def newDescriptorAVCVideo (it : BytesIterator) : PRes DescriptorAVCVideo :=
  pbind it.NextByte fun b0 it =>
  pbind it.NextByte fun b1 it =>
  pbind it.NextByte fun b2 it =>
  pbind it.NextByte fun b3 it =>
  (.ok {
    AVC24HourPictureFlag := b3 &&& 0x40 > 0
    AVCStillPresent := b3 &&& 0x80 > 0
    CompatibleFlags := b1 &&& 0x1f
    ConstraintSet0Flag := b1 &&& 0x80 > 0
    ConstraintSet1Flag := b1 &&& 0x40 > 0
    ConstraintSet2Flag := b1 &&& 0x20 > 0
    LevelIDC := b2
    ProfileIDC := b0 }, it)

/-- Parses a component descriptor. -/
def newDescriptorComponent (it : BytesIterator) (offsetEnd : Nat) : PRes DescriptorComponent :=
  pbind it.NextByte fun b0 it =>
  pbind it.NextByte fun b1 it =>
  pbind it.NextByte fun b2 it =>
  pbind (it.NextBytes 3) fun lang it =>
  let d0 : DescriptorComponent :=
    { ComponentTag := b2, ComponentType := b1, ISO639LanguageCode := lang,
      StreamContent := b0 &&& 0xf, StreamContentExt := b0 >>> 4, Text := [] }
  if it.offset < offsetEnd then
    pbind (it.NextBytes (offsetEnd - it.offset)) fun text it =>
    (.ok { d0 with Text := text }, it)
  else (.ok d0, it)

/-- Item loop of the content descriptor. -/
def newDescriptorContentItems (fuel : Nat) (offsetEnd : Nat)
    (acc : List DescriptorContentItem) (it : BytesIterator) :
    PRes (List DescriptorContentItem) :=
  if it.offset < offsetEnd then
    match fuel with
    | 0 => (.error .fuelExhausted, it)
    | fuel + 1 =>
      pbind (it.NextBytesNoCopy 2) fun bs it =>
      newDescriptorContentItems fuel offsetEnd
        (acc ++ [{ ContentNibbleLevel1 := (bs.getD 0 0) >>> 4,
                   ContentNibbleLevel2 := (bs.getD 0 0) &&& 0xf,
                   UserByte := bs.getD 1 0 }]) it
  else (.ok acc, it)

/-- Parses a content descriptor. -/
def newDescriptorContent (it : BytesIterator) (offsetEnd : Nat) : PRes DescriptorContent :=
  pbind (newDescriptorContentItems (offsetEnd - it.offset) offsetEnd [] it) fun items it =>
  (.ok { Items := items }, it)

/-- Parses a data stream alignment descriptor. -/
def newDescriptorDataStreamAlignment (it : BytesIterator) : PRes DescriptorDataStreamAlignment :=
  pbind it.NextByte fun b it => (.ok { Type' := b }, it)

/-- Parses an enhanced AC3 descriptor. -/
def newDescriptorEnhancedAC3 (it : BytesIterator) (offsetEnd : Nat) : PRes DescriptorEnhancedAC3 :=
  pbind it.NextByte fun b it =>
  let d0 : DescriptorEnhancedAC3 :=
    { AdditionalInfo := [], ASVC := 0, BSID := 0, ComponentType := 0,
      HasASVC := b &&& 0x10 > 0, HasBSID := b &&& 0x40 > 0,
      HasComponentType := b &&& 0x80 > 0, HasMainID := b &&& 0x20 > 0,
      HasSubStream1 := b &&& 0x4 > 0, HasSubStream2 := b &&& 0x2 > 0,
      HasSubStream3 := b &&& 0x1 > 0, MainID := 0, MixInfoExists := b &&& 0x8 > 0,
      SubStream1 := 0, SubStream2 := 0, SubStream3 := 0 }
  pbind (optParse d0.HasComponentType BytesIterator.NextByte it) fun ct it =>
  let d1 := match ct with | some v => { d0 with ComponentType := v } | none => d0
  pbind (optParse d1.HasBSID BytesIterator.NextByte it) fun bi it =>
  let d2 := match bi with | some v => { d1 with BSID := v } | none => d1
  pbind (optParse d2.HasMainID BytesIterator.NextByte it) fun mi it =>
  let d3 := match mi with | some v => { d2 with MainID := v } | none => d2
  pbind (optParse d3.HasASVC BytesIterator.NextByte it) fun av it =>
  let d4 := match av with | some v => { d3 with ASVC := v } | none => d3
  pbind (optParse d4.HasSubStream1 BytesIterator.NextByte it) fun s1 it =>
  let d5 := match s1 with | some v => { d4 with SubStream1 := v } | none => d4
  pbind (optParse d5.HasSubStream2 BytesIterator.NextByte it) fun s2 it =>
  let d6 := match s2 with | some v => { d5 with SubStream2 := v } | none => d5
  pbind (optParse d6.HasSubStream3 BytesIterator.NextByte it) fun s3 it =>
  let d7 := match s3 with | some v => { d6 with SubStream3 := v } | none => d6
  if it.offset < offsetEnd then
    pbind (it.NextBytes (offsetEnd - it.offset)) fun info it =>
    (.ok { d7 with AdditionalInfo := info }, it)
  else (.ok d7, it)

/-- Parses one extended event item. -/
def newDescriptorExtendedEventItem (it : BytesIterator) : PRes DescriptorExtendedEventItem :=
  pbind it.NextByte fun dl it =>
  pbind (it.NextBytes dl) fun desc it =>
  pbind it.NextByte fun cl it =>
  pbind (it.NextBytes cl) fun content it =>
  (.ok { Content := content, Description := desc }, it)

/-- Item loop of the extended event descriptor. -/
def newDescriptorExtendedEventItems (fuel : Nat) (offsetEnd : Nat)
    (acc : List DescriptorExtendedEventItem) (it : BytesIterator) :
    PRes (List DescriptorExtendedEventItem) :=
  if it.offset < offsetEnd then
    match fuel with
    | 0 => (.error .fuelExhausted, it)
    | fuel + 1 =>
      pbind (newDescriptorExtendedEventItem it) fun item it =>
      newDescriptorExtendedEventItems fuel offsetEnd (acc ++ [item]) it
  else (.ok acc, it)

/-- Parses an extended event descriptor. -/
def newDescriptorExtendedEvent (it : BytesIterator) : PRes DescriptorExtendedEvent :=
  pbind it.NextByte fun b it =>
  let number := b >>> 4
  let lastNumber := b &&& 0xf
  pbind (it.NextBytes 3) fun lang it =>
  pbind it.NextByte fun il it =>
  let offsetEnd := it.offset + il
  pbind (newDescriptorExtendedEventItems (offsetEnd - it.offset) offsetEnd [] it) fun items it =>
  pbind it.NextByte fun tl it =>
  pbind (it.NextBytes tl) fun text it =>
  (.ok { ISO639LanguageCode := lang, Items := items, LastDescriptorNumber := lastNumber,
         Number := number, Text := text }, it)

/-- Parses a supplementary audio extension descriptor. -/
def newDescriptorExtensionSupplementaryAudio (it : BytesIterator) (offsetEnd : Nat) :
    PRes DescriptorExtensionSupplementaryAudio :=
  pbind it.NextByte fun b it =>
  let d0 : DescriptorExtensionSupplementaryAudio :=
    { EditorialClassification := b >>> 2 &&& 0x1f, HasLanguageCode := b &&& 0x1 > 0,
      LanguageCode := [], MixType := b &&& 0x80 > 0, PrivateData := [] }
  pbind (optParse d0.HasLanguageCode (fun it => it.NextBytes 3) it) fun lang it =>
  let d1 := match lang with | some l => { d0 with LanguageCode := l } | none => d0
  if it.offset < offsetEnd then
    pbind (it.NextBytes (offsetEnd - it.offset)) fun pd it =>
    (.ok { d1 with PrivateData := pd }, it)
  else (.ok d1, it)

/-- Parses an extension descriptor (nested tag dispatch; only the
supplementary audio sub-tag 0x06 is recognised). -/
def newDescriptorExtension (it : BytesIterator) (offsetEnd : Nat) : PRes DescriptorExtension :=
  pbind it.NextByte fun tag it =>
  if tag = DescriptorTagExtensionSupplementaryAudio then
    pbind (newDescriptorExtensionSupplementaryAudio it offsetEnd) fun sa it =>
    (.ok { SupplementaryAudio := some sa, Tag := tag, Unknown := none }, it)
  else
    pbind (it.NextBytes (offsetEnd - it.offset)) fun b it =>
    (.ok { SupplementaryAudio := none, Tag := tag, Unknown := some b }, it)

/-- Parses an ISO639 language and audio type descriptor: all payload bytes
but the last are the language (which may therefore be shorter than 3
bytes), the last byte is the audio type. -/
def newDescriptorISO639LanguageAndAudioType (it : BytesIterator) (offsetEnd : Nat) :
    PRes DescriptorISO639LanguageAndAudioType :=
  pbind (it.NextBytes (offsetEnd - it.offset)) fun bs it =>
  (.ok { Language := bs.take (bs.length - 1), Type' := bs.getD (bs.length - 1) 0 }, it)

/-- Item loop of the local time offset descriptor. -/
def newDescriptorLocalTimeOffsetItems (fuel : Nat) (offsetEnd : Nat)
    (acc : List DescriptorLocalTimeOffsetItem) (it : BytesIterator) :
    PRes (List DescriptorLocalTimeOffsetItem) :=
  if it.offset < offsetEnd then
    match fuel with
    | 0 => (.error .fuelExhausted, it)
    | fuel + 1 =>
      pbind (it.NextBytes 3) fun cc it =>
      pbind it.NextByte fun b it =>
      pbind (parseDVBDurationMinutes it) fun lto it =>
      pbind (parseDVBTime it) fun toc it =>
      pbind (parseDVBDurationMinutes it) fun nto it =>
      newDescriptorLocalTimeOffsetItems fuel offsetEnd
        (acc ++ [{ CountryCode := cc, CountryRegionID := b >>> 2,
                   LocalTimeOffset := lto, LocalTimeOffsetPolarity := b &&& 0x1 > 0,
                   NextTimeOffset := nto, TimeOfChange := toc }]) it
  else (.ok acc, it)

/-- Parses a local time offset descriptor. -/
def newDescriptorLocalTimeOffset (it : BytesIterator) (offsetEnd : Nat) :
    PRes DescriptorLocalTimeOffset :=
  pbind (newDescriptorLocalTimeOffsetItems (offsetEnd - it.offset) offsetEnd [] it)
    fun items it => (.ok { Items := items }, it)

/-- Parses a maximum bitrate descriptor (the stored 22-bit value is in
units of 50 bytes per second). -/
def newDescriptorMaximumBitrate (it : BytesIterator) : PRes DescriptorMaximumBitrate :=
  pbind (it.NextBytesNoCopy 3) fun bs it =>
  (.ok { Bitrate := (((bs.getD 0 0) &&& 0x3f) <<< 16 ||| (bs.getD 1 0) <<< 8 ||| bs.getD 2 0) * 50 }, it)

/-- Parses a network name descriptor. -/
def newDescriptorNetworkName (it : BytesIterator) (offsetEnd : Nat) : PRes DescriptorNetworkName :=
  pbind (it.NextBytes (offsetEnd - it.offset)) fun name it =>
  (.ok { Name := name }, it)

/-- Item loop of the parental rating descriptor. -/
def newDescriptorParentalRatingItems (fuel : Nat) (offsetEnd : Nat)
    (acc : List DescriptorParentalRatingItem) (it : BytesIterator) :
    PRes (List DescriptorParentalRatingItem) :=
  if it.offset < offsetEnd then
    match fuel with
    | 0 => (.error .fuelExhausted, it)
    | fuel + 1 =>
      pbind (it.NextBytes 4) fun bs it =>
      newDescriptorParentalRatingItems fuel offsetEnd
        (acc ++ [{ CountryCode := bs.take 3, Rating := bs.getD 3 0 }]) it
  else (.ok acc, it)

/-- Parses a parental rating descriptor. -/
def newDescriptorParentalRating (it : BytesIterator) (offsetEnd : Nat) :
    PRes DescriptorParentalRating :=
  pbind (newDescriptorParentalRatingItems (offsetEnd - it.offset) offsetEnd [] it)
    fun items it => (.ok { Items := items }, it)

/-- Parses a private data indicator descriptor. -/
def newDescriptorPrivateDataIndicator (it : BytesIterator) : PRes DescriptorPrivateDataIndicator :=
  pbind (it.NextBytesNoCopy 4) fun bs it =>
  (.ok { Indicator := (bs.getD 0 0) <<< 24 ||| (bs.getD 1 0) <<< 16 |||
    (bs.getD 2 0) <<< 8 ||| bs.getD 3 0 }, it)

/-- Parses a private data specifier descriptor. -/
def newDescriptorPrivateDataSpecifier (it : BytesIterator) : PRes DescriptorPrivateDataSpecifier :=
  pbind (it.NextBytesNoCopy 4) fun bs it =>
  (.ok { Specifier := (bs.getD 0 0) <<< 24 ||| (bs.getD 1 0) <<< 16 |||
    (bs.getD 2 0) <<< 8 ||| bs.getD 3 0 }, it)

/-- Parses a registration descriptor. -/
def newDescriptorRegistration (it : BytesIterator) (offsetEnd : Nat) : PRes DescriptorRegistration :=
  pbind (it.NextBytesNoCopy 4) fun bs it =>
  let d0 : DescriptorRegistration :=
    { AdditionalIdentificationInfo := [],
      FormatIdentifier := (bs.getD 0 0) <<< 24 ||| (bs.getD 1 0) <<< 16 |||
        (bs.getD 2 0) <<< 8 ||| bs.getD 3 0 }
  if it.offset < offsetEnd then
    pbind (it.NextBytes (offsetEnd - it.offset)) fun info it =>
    (.ok { d0 with AdditionalIdentificationInfo := info }, it)
  else (.ok d0, it)

/-- Parses a service descriptor. -/
def newDescriptorService (it : BytesIterator) : PRes DescriptorService :=
  pbind it.NextByte fun ty it =>
  pbind it.NextByte fun pl it =>
  pbind (it.NextBytes pl) fun provider it =>
  pbind it.NextByte fun nl it =>
  pbind (it.NextBytes nl) fun name it =>
  (.ok { Name := name, Provider := provider, Type' := ty }, it)

/-- Parses a short event descriptor. -/
def newDescriptorShortEvent (it : BytesIterator) : PRes DescriptorShortEvent :=
  pbind (it.NextBytes 3) fun lang it =>
  pbind it.NextByte fun el it =>
  pbind (it.NextBytes el) fun eventName it =>
  pbind it.NextByte fun tl it =>
  pbind (it.NextBytes tl) fun text it =>
  (.ok { EventName := eventName, Language := lang, Text := text }, it)

/-- Parses a stream identifier descriptor. -/
def newDescriptorStreamIdentifier (it : BytesIterator) : PRes DescriptorStreamIdentifier :=
  pbind it.NextByte fun b it => (.ok { ComponentTag := b }, it)

/-- Item loop of the subtitling descriptor. -/
def newDescriptorSubtitlingItems (fuel : Nat) (offsetEnd : Nat)
    (acc : List DescriptorSubtitlingItem) (it : BytesIterator) :
    PRes (List DescriptorSubtitlingItem) :=
  if it.offset < offsetEnd then
    match fuel with
    | 0 => (.error .fuelExhausted, it)
    | fuel + 1 =>
      pbind (it.NextBytes 3) fun lang it =>
      pbind it.NextByte fun ty it =>
      pbind (it.NextBytesNoCopy 2) fun cp it =>
      pbind (it.NextBytesNoCopy 2) fun ap it =>
      newDescriptorSubtitlingItems fuel offsetEnd
        (acc ++ [{ AncillaryPageID := (ap.getD 0 0) <<< 8 ||| ap.getD 1 0,
                   CompositionPageID := (cp.getD 0 0) <<< 8 ||| cp.getD 1 0,
                   Language := lang, Type' := ty }]) it
  else (.ok acc, it)

/-- Parses a subtitling descriptor. -/
def newDescriptorSubtitling (it : BytesIterator) (offsetEnd : Nat) : PRes DescriptorSubtitling :=
  pbind (newDescriptorSubtitlingItems (offsetEnd - it.offset) offsetEnd [] it)
    fun items it => (.ok { Items := items }, it)

/-- Item loop of the teletext descriptor; the page byte is read as BCD
(high nibble times ten plus low nibble). -/
def newDescriptorTeletextItems (fuel : Nat) (offsetEnd : Nat)
    (acc : List DescriptorTeletextItem) (it : BytesIterator) :
    PRes (List DescriptorTeletextItem) :=
  if it.offset < offsetEnd then
    match fuel with
    | 0 => (.error .fuelExhausted, it)
    | fuel + 1 =>
      pbind (it.NextBytes 3) fun lang it =>
      pbind it.NextByte fun b0 it =>
      pbind it.NextByte fun b1 it =>
      newDescriptorTeletextItems fuel offsetEnd
        (acc ++ [{ Language := lang, Magazine := b0 &&& 0x7,
                   Page := (b1 >>> 4) * 10 + (b1 &&& 0xf), Type' := b0 >>> 3 }]) it
  else (.ok acc, it)

/-- Parses a teletext descriptor. -/
def newDescriptorTeletext (it : BytesIterator) (offsetEnd : Nat) : PRes DescriptorTeletext :=
  pbind (newDescriptorTeletextItems (offsetEnd - it.offset) offsetEnd [] it)
    fun items it => (.ok { Items := items }, it)

/-- Parses an unknown descriptor: captures the declared length of bytes
verbatim together with the original tag. -/
def newDescriptorUnknown (it : BytesIterator) (tag length : Nat) : PRes DescriptorUnknown :=
  pbind (it.NextBytes length) fun content it =>
  (.ok { Content := content, Tag := tag }, it)

/-- Decides whether a VBI data service id is one of the six recognised
ones. -/
def vbiKnownServiceID (id : Nat) : Bool :=
  id = VBIDataServiceIDClosedCaptioning ∨ id = VBIDataServiceIDEBUTeletext ∨
  id = VBIDataServiceIDInvertedTeletext ∨ id = VBIDataServiceIDMonochrome442Samples ∨
  id = VBIDataServiceIDVPS ∨ id = VBIDataServiceIDWSS

/-- Inner byte loop of one VBI data service: for known service ids each
byte becomes a line descriptor, for unknown ids the bytes are consumed
and dropped. -/
def newDescriptorVBIDataDescriptors (fuel : Nat) (offsetDataEnd : Nat) (dataServiceID : Nat)
    (acc : List DescriptorVBIDataDescriptor) (it : BytesIterator) :
    PRes (List DescriptorVBIDataDescriptor) :=
  if it.offset < offsetDataEnd then
    match fuel with
    | 0 => (.error .fuelExhausted, it)
    | fuel + 1 =>
      pbind it.NextByte fun b it =>
      newDescriptorVBIDataDescriptors fuel offsetDataEnd dataServiceID
        (if vbiKnownServiceID dataServiceID then
          acc ++ [{ FieldParity := b &&& 0x20 > 0, LineOffset := b &&& 0x1f }]
        else acc) it
  else (.ok acc, it)

/-- Service loop of the VBI data descriptor. -/
def newDescriptorVBIDataServices (fuel : Nat) (offsetEnd : Nat)
    (acc : List DescriptorVBIDataService) (it : BytesIterator) :
    PRes (List DescriptorVBIDataService) :=
  if it.offset < offsetEnd then
    match fuel with
    | 0 => (.error .fuelExhausted, it)
    | fuel + 1 =>
      pbind it.NextByte fun id it =>
      pbind it.NextByte fun dl it =>
      let offsetDataEnd := it.offset + dl
      pbind (newDescriptorVBIDataDescriptors (offsetDataEnd - it.offset) offsetDataEnd id [] it)
        fun ds it =>
      newDescriptorVBIDataServices fuel offsetEnd
        (acc ++ [{ DataServiceID := id, Descriptors := ds }]) it
  else (.ok acc, it)

/-- Parses a VBI data descriptor. -/
def newDescriptorVBIData (it : BytesIterator) (offsetEnd : Nat) : PRes DescriptorVBIData :=
  pbind (newDescriptorVBIDataServices (offsetEnd - it.offset) offsetEnd [] it)
    fun services it => (.ok { Services := services }, it)

/-- Parses one descriptor entry of the list: the two envelope bytes, then
(for a positive declared length) the user-defined capture or the
tag-dispatched variant parser, and finally the unconditional seek to the
declared end. -/
def parseDescriptorEntry (it : BytesIterator) : PRes Descriptor :=
  pbind (it.NextBytesNoCopy 2) fun bs it =>
  let d0 : Descriptor := { Descriptor.empty with Length := bs.getD 1 0, Tag := bs.getD 0 0 }
  if 0 < d0.Length then
    let offsetDescriptorEnd := it.offset + d0.Length
    pbind (
      if 0x80 ≤ d0.Tag ∧ d0.Tag ≤ 0xfe then
        pbind (it.NextBytes d0.Length) fun ud it => (.ok { d0 with UserDefined := ud }, it)
      else
        match d0.Tag with
        | 0x6a => pbind (newDescriptorAC3 it offsetDescriptorEnd) fun x it =>
            (.ok { d0 with AC3 := some x }, it)
        | 0x28 => pbind (newDescriptorAVCVideo it) fun x it =>
            (.ok { d0 with AVCVideo := some x }, it)
        | 0x50 => pbind (newDescriptorComponent it offsetDescriptorEnd) fun x it =>
            (.ok { d0 with Component := some x }, it)
        | 0x54 => pbind (newDescriptorContent it offsetDescriptorEnd) fun x it =>
            (.ok { d0 with Content := some x }, it)
        | 0x6 => pbind (newDescriptorDataStreamAlignment it) fun x it =>
            (.ok { d0 with DataStreamAlignment := some x }, it)
        | 0x7a => pbind (newDescriptorEnhancedAC3 it offsetDescriptorEnd) fun x it =>
            (.ok { d0 with EnhancedAC3 := some x }, it)
        | 0x4e => pbind (newDescriptorExtendedEvent it) fun x it =>
            (.ok { d0 with ExtendedEvent := some x }, it)
        | 0x7f => pbind (newDescriptorExtension it offsetDescriptorEnd) fun x it =>
            (.ok { d0 with Extension := some x }, it)
        | 0xa => pbind (newDescriptorISO639LanguageAndAudioType it offsetDescriptorEnd) fun x it =>
            (.ok { d0 with ISO639LanguageAndAudioType := some x }, it)
        | 0x58 => pbind (newDescriptorLocalTimeOffset it offsetDescriptorEnd) fun x it =>
            (.ok { d0 with LocalTimeOffset := some x }, it)
        | 0xe => pbind (newDescriptorMaximumBitrate it) fun x it =>
            (.ok { d0 with MaximumBitrate := some x }, it)
        | 0x40 => pbind (newDescriptorNetworkName it offsetDescriptorEnd) fun x it =>
            (.ok { d0 with NetworkName := some x }, it)
        | 0x55 => pbind (newDescriptorParentalRating it offsetDescriptorEnd) fun x it =>
            (.ok { d0 with ParentalRating := some x }, it)
        | 0xf => pbind (newDescriptorPrivateDataIndicator it) fun x it =>
            (.ok { d0 with PrivateDataIndicator := some x }, it)
        | 0x5f => pbind (newDescriptorPrivateDataSpecifier it) fun x it =>
            (.ok { d0 with PrivateDataSpecifier := some x }, it)
        | 0x5 => pbind (newDescriptorRegistration it offsetDescriptorEnd) fun x it =>
            (.ok { d0 with Registration := some x }, it)
        | 0x48 => pbind (newDescriptorService it) fun x it =>
            (.ok { d0 with Service := some x }, it)
        | 0x4d => pbind (newDescriptorShortEvent it) fun x it =>
            (.ok { d0 with ShortEvent := some x }, it)
        | 0x52 => pbind (newDescriptorStreamIdentifier it) fun x it =>
            (.ok { d0 with StreamIdentifier := some x }, it)
        | 0x59 => pbind (newDescriptorSubtitling it offsetDescriptorEnd) fun x it =>
            (.ok { d0 with Subtitling := some x }, it)
        | 0x56 => pbind (newDescriptorTeletext it offsetDescriptorEnd) fun x it =>
            (.ok { d0 with Teletext := some x }, it)
        | 0x45 => pbind (newDescriptorVBIData it offsetDescriptorEnd) fun x it =>
            (.ok { d0 with VBIData := some x }, it)
        | 0x46 => pbind (newDescriptorTeletext it offsetDescriptorEnd) fun x it =>
            (.ok { d0 with VBITeletext := some x }, it)
        | _ => pbind (newDescriptorUnknown it d0.Tag d0.Length) fun x it =>
            (.ok { d0 with Unknown := some x }, it)) fun d it =>
    (.ok d, it.Seek (offsetDescriptorEnd : Nat))
  else (.ok d0, it)

/-- Entry loop of the descriptor list. -/
def parseDescriptorsLoop (fuel : Nat) (offsetEnd : Nat) (acc : List Descriptor)
    (it : BytesIterator) : PRes (List Descriptor) :=
  if it.offset < offsetEnd then
    match fuel with
    | 0 => (.error .fuelExhausted, it)
    | fuel + 1 =>
      pbind (parseDescriptorEntry it) fun d it =>
      parseDescriptorsLoop fuel offsetEnd (acc ++ [d]) it
  else (.ok acc, it)

/-- Parses a descriptor list: the 12-bit length prefix, then entries until
the declared end. -/
def parseDescriptors (it : BytesIterator) : PRes (List Descriptor) :=
  pbind (it.NextBytesNoCopy 2) fun bs it =>
  let length := ((bs.getD 0 0) &&& 0xf) <<< 8 ||| bs.getD 1 0
  if 0 < length then
    let offsetEnd := it.offset + length
    parseDescriptorsLoop (offsetEnd - it.offset) offsetEnd [] it
  else (.ok [], it)

/-! ### Descriptor serialization -/

section DescriptorWrite

variable {σ : Type}

open LWBitsWriter

/-- Result of a unit-valued writing step. -/
abbrev WURes (σ : Type) := (Except Err Unit) × LWBitsWriter σ

/-- Returns the writer's latched error, the Go `return w.Err()` convention. -/
def retE (st : LWBitsWriter σ) : WURes σ :=
  match st.err with
  | some e => (.error e, st)
  | none => (.ok (), st)

/-- Length of a user-defined descriptor payload. -/
def calcDescriptorUserDefinedLength (d : List Nat) : Nat := d.length % 256

/-- Writes a user-defined descriptor payload. -/
def writeDescriptorUserDefined (wr : Sink σ) (st : LWBitsWriter σ) (d : List Nat) : WURes σ :=
  retE (WriteSlice wr st d)

/-- Length of an AC3 descriptor payload. -/
def calcDescriptorAC3Length (d : DescriptorAC3) : Nat :=
  (1 + (if d.HasComponentType then 1 else 0) + (if d.HasBSID then 1 else 0) +
    (if d.HasMainID then 1 else 0) + (if d.HasASVC then 1 else 0) +
    d.AdditionalInfo.length) % 256

/-- Writes an AC3 descriptor payload. -/
def writeDescriptorAC3 (wr : Sink σ) (st : LWBitsWriter σ) (d : DescriptorAC3) : WURes σ :=
  let st := WriteBit wr st d.HasComponentType
  let st := WriteBit wr st d.HasBSID
  let st := WriteBit wr st d.HasMainID
  let st := WriteBit wr st d.HasASVC
  let st := WriteBits wr st 0xff 4
  let st := if d.HasComponentType then WriteByte wr st d.ComponentType else st
  let st := if d.HasBSID then WriteByte wr st d.BSID else st
  let st := if d.HasMainID then WriteByte wr st d.MainID else st
  let st := if d.HasASVC then WriteByte wr st d.ASVC else st
  retE (WriteSlice wr st d.AdditionalInfo)

/-- Length of an AVC video descriptor payload. -/
def calcDescriptorAVCVideoLength (_ : DescriptorAVCVideo) : Nat := 4

/-- Writes an AVC video descriptor payload. -/
def writeDescriptorAVCVideo (wr : Sink σ) (st : LWBitsWriter σ) (d : DescriptorAVCVideo) :
    WURes σ :=
  let st := WriteByte wr st d.ProfileIDC
  let st := WriteBit wr st d.ConstraintSet0Flag
  let st := WriteBit wr st d.ConstraintSet1Flag
  let st := WriteBit wr st d.ConstraintSet2Flag
  let st := WriteBits wr st d.CompatibleFlags 5
  let st := WriteByte wr st d.LevelIDC
  let st := WriteBit wr st d.AVCStillPresent
  let st := WriteBit wr st d.AVC24HourPictureFlag
  retE (WriteBits wr st 0xff 6)

/-- Length of a component descriptor payload. -/
def calcDescriptorComponentLength (d : DescriptorComponent) : Nat :=
  (6 + d.Text.length) % 256

/-- Writes a component descriptor payload; the language slice is written
through a 3-byte reslice as in Go (the parser always yields a 3-byte
code; a shorter caller-made slice would panic in Go). -/
def writeDescriptorComponent (wr : Sink σ) (st : LWBitsWriter σ) (d : DescriptorComponent) :
    WURes σ :=
  let st := WriteBits wr st d.StreamContentExt 4
  let st := WriteBits wr st d.StreamContent 4
  let st := WriteByte wr st d.ComponentType
  let st := WriteByte wr st d.ComponentTag
  let st := WriteSlice wr st (d.ISO639LanguageCode.take 3)
  retE (WriteSlice wr st d.Text)

/-- Length of a content descriptor payload. -/
def calcDescriptorContentLength (d : DescriptorContent) : Nat :=
  (2 * d.Items.length) % 256

/-- Writes a content descriptor payload. -/
def writeDescriptorContent (wr : Sink σ) (st : LWBitsWriter σ) (d : DescriptorContent) :
    WURes σ :=
  retE (d.Items.foldl (fun st item =>
    let st := WriteBits wr st item.ContentNibbleLevel1 4
    let st := WriteBits wr st item.ContentNibbleLevel2 4
    WriteByte wr st item.UserByte) st)

/-- Length of a data stream alignment descriptor payload. -/
def calcDescriptorDataStreamAlignmentLength (_ : DescriptorDataStreamAlignment) : Nat := 1

/-- Writes a data stream alignment descriptor payload. -/
def writeDescriptorDataStreamAlignment (wr : Sink σ) (st : LWBitsWriter σ)
    (d : DescriptorDataStreamAlignment) : WURes σ :=
  retE (WriteByte wr st d.Type')

/-- Length of an enhanced AC3 descriptor payload. -/
def calcDescriptorEnhancedAC3Length (d : DescriptorEnhancedAC3) : Nat :=
  (1 + (if d.HasComponentType then 1 else 0) + (if d.HasBSID then 1 else 0) +
    (if d.HasMainID then 1 else 0) + (if d.HasASVC then 1 else 0) +
    (if d.HasSubStream1 then 1 else 0) + (if d.HasSubStream2 then 1 else 0) +
    (if d.HasSubStream3 then 1 else 0) + d.AdditionalInfo.length) % 256

/-- Writes an enhanced AC3 descriptor payload. -/
def writeDescriptorEnhancedAC3 (wr : Sink σ) (st : LWBitsWriter σ)
    (d : DescriptorEnhancedAC3) : WURes σ :=
  let st := WriteBit wr st d.HasComponentType
  let st := WriteBit wr st d.HasBSID
  let st := WriteBit wr st d.HasMainID
  let st := WriteBit wr st d.HasASVC
  let st := WriteBit wr st d.MixInfoExists
  let st := WriteBit wr st d.HasSubStream1
  let st := WriteBit wr st d.HasSubStream2
  let st := WriteBit wr st d.HasSubStream3
  let st := if d.HasComponentType then WriteByte wr st d.ComponentType else st
  let st := if d.HasBSID then WriteByte wr st d.BSID else st
  let st := if d.HasMainID then WriteByte wr st d.MainID else st
  let st := if d.HasASVC then WriteByte wr st d.ASVC else st
  let st := if d.HasSubStream1 then WriteByte wr st d.SubStream1 else st
  let st := if d.HasSubStream2 then WriteByte wr st d.SubStream2 else st
  let st := if d.HasSubStream3 then WriteByte wr st d.SubStream3 else st
  retE (WriteSlice wr st d.AdditionalInfo)

/-- Lengths of an extended event descriptor: the total payload length and
the length of the items block. -/
def calcDescriptorExtendedEventLength (d : DescriptorExtendedEvent) : Nat × Nat :=
  let itemsRet := d.Items.foldl
    (fun acc item => acc + 1 + item.Description.length + 1 + item.Content.length) 0
  ((1 + 3 + 1 + itemsRet + 1 + d.Text.length) % 256, itemsRet % 256)

/-- Writes an extended event descriptor payload. -/
def writeDescriptorExtendedEvent (wr : Sink σ) (st : LWBitsWriter σ)
    (d : DescriptorExtendedEvent) : WURes σ :=
  let lengthOfItems := (calcDescriptorExtendedEventLength d).2
  let st := WriteBits wr st d.Number 4
  let st := WriteBits wr st d.LastDescriptorNumber 4
  let st := WriteSlice wr st (d.ISO639LanguageCode.take 3)
  let st := WriteByte wr st lengthOfItems
  let st := d.Items.foldl (fun st item =>
    let st := WriteByte wr st (item.Description.length % 256)
    let st := WriteSlice wr st item.Description
    let st := WriteByte wr st (item.Content.length % 256)
    WriteSlice wr st item.Content) st
  let st := WriteByte wr st (d.Text.length % 256)
  retE (WriteSlice wr st d.Text)

/-- Length of a supplementary audio extension descriptor payload (a Go
`int`, no byte wrap here). -/
def calcDescriptorExtensionSupplementaryAudioLength
    (d : DescriptorExtensionSupplementaryAudio) : Nat :=
  1 + (if d.HasLanguageCode then 3 else 0) + d.PrivateData.length

/-- Length of an extension descriptor payload; for the supplementary audio
sub-tag with an absent value, Go dereferences nil (unreachable on
well-formed descriptors), modelled as 1. -/
def calcDescriptorExtensionLength (d : DescriptorExtension) : Nat :=
  (1 + (if d.Tag = DescriptorTagExtensionSupplementaryAudio then
    match d.SupplementaryAudio with
    | some sa => calcDescriptorExtensionSupplementaryAudioLength sa
    | none => 0
  else match d.Unknown with
    | some u => u.length
    | none => 0)) % 256

/-- Writes a supplementary audio extension descriptor payload. -/
def writeDescriptorExtensionSupplementaryAudio (wr : Sink σ) (st : LWBitsWriter σ)
    (d : DescriptorExtensionSupplementaryAudio) : WURes σ :=
  let st := WriteBit wr st d.MixType
  let st := WriteBits wr st d.EditorialClassification 5
  let st := WriteBit wr st true
  let st := WriteBit wr st d.HasLanguageCode
  let st := if d.HasLanguageCode then WriteSlice wr st (d.LanguageCode.take 3) else st
  retE (WriteSlice wr st d.PrivateData)

/-- Writes an extension descriptor payload. -/
def writeDescriptorExtension (wr : Sink σ) (st : LWBitsWriter σ) (d : DescriptorExtension) :
    WURes σ :=
  let st := WriteByte wr st d.Tag
  if d.Tag = DescriptorTagExtensionSupplementaryAudio then
    match d.SupplementaryAudio with
    | none => (.error .nilDeref, st)
    | some sa =>
      match writeDescriptorExtensionSupplementaryAudio wr st sa with
      | (.error e, st) => (.error e, st)
      | (.ok _, st) => retE st
  else
    match d.Unknown with
    | some u => retE (WriteSlice wr st u)
    | none => retE st

/-- Length of an ISO639 language and audio type descriptor payload. -/
def calcDescriptorISO639LanguageAndAudioTypeLength
    (_ : DescriptorISO639LanguageAndAudioType) : Nat := 3 + 1

/-- The three language bytes the ISO639 writer emits: Go writes
`d.Language[:3]`, a reslice of the backing array. For a language of three
or more bytes this is its first three bytes; for the parser-produced
two-byte language the backing array is the descriptor payload, whose next
byte is the audio type, so the reslice picks up the type byte (a shorter
caller-made slice would panic in Go, a case outside every claim). -/
def iso639LanguageWire (d : DescriptorISO639LanguageAndAudioType) : List Nat :=
  (d.Language ++ [d.Type' % 256]).take 3

/-- Writes an ISO639 language and audio type descriptor payload. -/
def writeDescriptorISO639LanguageAndAudioType (wr : Sink σ) (st : LWBitsWriter σ)
    (d : DescriptorISO639LanguageAndAudioType) : WURes σ :=
  let st := WriteSlice wr st (iso639LanguageWire d)
  retE (WriteByte wr st d.Type')

/-- Length of a local time offset descriptor payload. -/
def calcDescriptorLocalTimeOffsetLength (d : DescriptorLocalTimeOffset) : Nat :=
  (13 * d.Items.length) % 256

/-- Writes a DVB duration in minutes. Modelled from the spec: external
collaborator codec emitting the contracted two-byte shape. -/
def writeDVBDurationMinutes (wr : Sink σ) (st : LWBitsWriter σ) (d : DVBDuration) : WRes σ :=
  retW (WriteSlice wr st d.bytes) 2

/-- Writes a DVB time. Modelled from the spec: external collaborator codec
emitting the contracted five-byte shape. -/
def writeDVBTime (wr : Sink σ) (st : LWBitsWriter σ) (d : DVBTime) : WRes σ :=
  retW (WriteSlice wr st d.bytes) 5

/-- Writes one local time offset item. -/
def writeDescriptorLocalTimeOffsetItem (wr : Sink σ) (st : LWBitsWriter σ)
    (item : DescriptorLocalTimeOffsetItem) : WURes σ :=
  let st := WriteSlice wr st (item.CountryCode.take 3)
  let st := WriteBits wr st item.CountryRegionID 6
  let st := WriteBits wr st 0xff 1
  let st := WriteBit wr st item.LocalTimeOffsetPolarity
  match writeDVBDurationMinutes wr st item.LocalTimeOffset with
  | (.error e, st) => (.error e, st)
  | (.ok _, st) =>
  match writeDVBTime wr st item.TimeOfChange with
  | (.error e, st) => (.error e, st)
  | (.ok _, st) =>
  match writeDVBDurationMinutes wr st item.NextTimeOffset with
  | (.error e, st) => (.error e, st)
  | (.ok _, st) => (.ok (), st)

/-- Item loop of the local time offset writer. -/
def writeDescriptorLocalTimeOffsetItemsLoop (wr : Sink σ) :
    List DescriptorLocalTimeOffsetItem → LWBitsWriter σ → WURes σ
  | [], st => (.ok (), st)
  | item :: items, st =>
    match writeDescriptorLocalTimeOffsetItem wr st item with
    | (.error e, st) => (.error e, st)
    | (.ok _, st) => writeDescriptorLocalTimeOffsetItemsLoop wr items st

/-- Writes a local time offset descriptor payload. -/
def writeDescriptorLocalTimeOffset (wr : Sink σ) (st : LWBitsWriter σ)
    (d : DescriptorLocalTimeOffset) : WURes σ :=
  match writeDescriptorLocalTimeOffsetItemsLoop wr d.Items st with
  | (.error e, st) => (.error e, st)
  | (.ok _, st) => retE st

/-- Length of a maximum bitrate descriptor payload. -/
def calcDescriptorMaximumBitrateLength (_ : DescriptorMaximumBitrate) : Nat := 3

/-- Writes a maximum bitrate descriptor payload (value divided back into
50-byte units). -/
def writeDescriptorMaximumBitrate (wr : Sink σ) (st : LWBitsWriter σ)
    (d : DescriptorMaximumBitrate) : WURes σ :=
  let st := WriteBits wr st 0xff 2
  retE (WriteBits wr st (d.Bitrate / 50) 22)

/-- Length of a network name descriptor payload. -/
def calcDescriptorNetworkNameLength (d : DescriptorNetworkName) : Nat :=
  d.Name.length % 256

/-- Writes a network name descriptor payload. -/
def writeDescriptorNetworkName (wr : Sink σ) (st : LWBitsWriter σ)
    (d : DescriptorNetworkName) : WURes σ :=
  retE (WriteSlice wr st d.Name)

/-- Length of a parental rating descriptor payload. -/
def calcDescriptorParentalRatingLength (d : DescriptorParentalRating) : Nat :=
  (4 * d.Items.length) % 256

/-- Writes a parental rating descriptor payload. -/
def writeDescriptorParentalRating (wr : Sink σ) (st : LWBitsWriter σ)
    (d : DescriptorParentalRating) : WURes σ :=
  retE (d.Items.foldl (fun st item =>
    let st := WriteSlice wr st (item.CountryCode.take 3)
    WriteByte wr st item.Rating) st)

/-- Length of a private data indicator descriptor payload. -/
def calcDescriptorPrivateDataIndicatorLength (_ : DescriptorPrivateDataIndicator) : Nat := 4

/-- Writes a private data indicator descriptor payload. -/
def writeDescriptorPrivateDataIndicator (wr : Sink σ) (st : LWBitsWriter σ)
    (d : DescriptorPrivateDataIndicator) : WURes σ :=
  retE (WriteUint32 wr st d.Indicator)

/-- Length of a private data specifier descriptor payload. -/
def calcDescriptorPrivateDataSpecifierLength (_ : DescriptorPrivateDataSpecifier) : Nat := 4

/-- Writes a private data specifier descriptor payload. -/
def writeDescriptorPrivateDataSpecifier (wr : Sink σ) (st : LWBitsWriter σ)
    (d : DescriptorPrivateDataSpecifier) : WURes σ :=
  retE (WriteUint32 wr st d.Specifier)

/-- Length of a registration descriptor payload. -/
def calcDescriptorRegistrationLength (d : DescriptorRegistration) : Nat :=
  (4 + d.AdditionalIdentificationInfo.length) % 256

/-- Writes a registration descriptor payload. -/
def writeDescriptorRegistration (wr : Sink σ) (st : LWBitsWriter σ)
    (d : DescriptorRegistration) : WURes σ :=
  let st := WriteUint32 wr st d.FormatIdentifier
  retE (WriteSlice wr st d.AdditionalIdentificationInfo)

/-- Length of a service descriptor payload. -/
def calcDescriptorServiceLength (d : DescriptorService) : Nat :=
  (3 + d.Name.length + d.Provider.length) % 256

/-- Writes a service descriptor payload. -/
def writeDescriptorService (wr : Sink σ) (st : LWBitsWriter σ) (d : DescriptorService) :
    WURes σ :=
  let st := WriteByte wr st d.Type'
  let st := WriteByte wr st (d.Provider.length % 256)
  let st := WriteSlice wr st d.Provider
  let st := WriteByte wr st (d.Name.length % 256)
  retE (WriteSlice wr st d.Name)

/-- Length of a short event descriptor payload. -/
def calcDescriptorShortEventLength (d : DescriptorShortEvent) : Nat :=
  (3 + 1 + 1 + d.EventName.length + d.Text.length) % 256

/-- Writes a short event descriptor payload. -/
def writeDescriptorShortEvent (wr : Sink σ) (st : LWBitsWriter σ) (d : DescriptorShortEvent) :
    WURes σ :=
  let st := WriteSlice wr st (d.Language.take 3)
  let st := WriteByte wr st (d.EventName.length % 256)
  let st := WriteSlice wr st d.EventName
  let st := WriteByte wr st (d.Text.length % 256)
  retE (WriteSlice wr st d.Text)

/-- Length of a stream identifier descriptor payload. -/
def calcDescriptorStreamIdentifierLength (_ : DescriptorStreamIdentifier) : Nat := 1

/-- Writes a stream identifier descriptor payload. -/
def writeDescriptorStreamIdentifier (wr : Sink σ) (st : LWBitsWriter σ)
    (d : DescriptorStreamIdentifier) : WURes σ :=
  retE (WriteByte wr st d.ComponentTag)

/-- Length of a subtitling descriptor payload. -/
def calcDescriptorSubtitlingLength (d : DescriptorSubtitling) : Nat :=
  (8 * d.Items.length) % 256

/-- Writes a subtitling descriptor payload. -/
def writeDescriptorSubtitling (wr : Sink σ) (st : LWBitsWriter σ) (d : DescriptorSubtitling) :
    WURes σ :=
  retE (d.Items.foldl (fun st item =>
    let st := WriteSlice wr st (item.Language.take 3)
    let st := WriteByte wr st item.Type'
    let st := WriteUint16 wr st item.CompositionPageID
    WriteUint16 wr st item.AncillaryPageID) st)

/-- Length of a teletext descriptor payload. -/
def calcDescriptorTeletextLength (d : DescriptorTeletext) : Nat :=
  (5 * d.Items.length) % 256

/-- Writes a teletext descriptor payload; the page is emitted as two BCD
nibbles. -/
def writeDescriptorTeletext (wr : Sink σ) (st : LWBitsWriter σ) (d : DescriptorTeletext) :
    WURes σ :=
  retE (d.Items.foldl (fun st item =>
    let st := WriteSlice wr st (item.Language.take 3)
    let st := WriteBits wr st item.Type' 5
    let st := WriteBits wr st item.Magazine 3
    let st := WriteBits wr st (item.Page / 10) 4
    WriteBits wr st (item.Page % 10) 4) st)

/-- Length of a VBI data descriptor payload. -/
def calcDescriptorVBIDataLength (d : DescriptorVBIData) : Nat :=
  (3 * d.Services.length) % 256

/-- Writes a VBI data descriptor payload; services with an unknown id are
emitted as the sentinel pair 0x01 0xFF. -/
def writeDescriptorVBIData (wr : Sink σ) (st : LWBitsWriter σ) (d : DescriptorVBIData) :
    WURes σ :=
  retE (d.Services.foldl (fun st item =>
    let st := WriteByte wr st item.DataServiceID
    if vbiKnownServiceID item.DataServiceID then
      let st := WriteByte wr st (item.Descriptors.length % 256)
      item.Descriptors.foldl (fun st desc =>
        let st := WriteBits wr st 0xff 2
        let st := WriteBit wr st desc.FieldParity
        WriteBits wr st desc.LineOffset 5) st
    else
      let st := WriteByte wr st 1
      WriteByte wr st 0xff) st)

/-- Length of an unknown descriptor payload. -/
def calcDescriptorUnknownLength (d : DescriptorUnknown) : Nat := d.Content.length % 256

/-- Writes an unknown descriptor payload. -/
def writeDescriptorUnknown (wr : Sink σ) (st : LWBitsWriter σ) (d : DescriptorUnknown) :
    WURes σ :=
  retE (WriteSlice wr st d.Content)

/-- Dispatched payload length of a descriptor; an absent variant value
under its tag is a Go nil dereference (panic), modelled as length 0 and
unreachable on well-formed descriptors. -/
def calcDescriptorLength (d : Descriptor) : Nat :=
  if 0x80 ≤ d.Tag ∧ d.Tag ≤ 0xfe then calcDescriptorUserDefinedLength d.UserDefined
  else match d.Tag with
  | 0x6a => match d.AC3 with | some x => calcDescriptorAC3Length x | none => 0
  | 0x28 => match d.AVCVideo with | some x => calcDescriptorAVCVideoLength x | none => 0
  | 0x50 => match d.Component with | some x => calcDescriptorComponentLength x | none => 0
  | 0x54 => match d.Content with | some x => calcDescriptorContentLength x | none => 0
  | 0x6 => match d.DataStreamAlignment with
    | some x => calcDescriptorDataStreamAlignmentLength x | none => 0
  | 0x7a => match d.EnhancedAC3 with | some x => calcDescriptorEnhancedAC3Length x | none => 0
  | 0x4e => match d.ExtendedEvent with
    | some x => (calcDescriptorExtendedEventLength x).1 | none => 0
  | 0x7f => match d.Extension with | some x => calcDescriptorExtensionLength x | none => 0
  | 0xa => match d.ISO639LanguageAndAudioType with
    | some x => calcDescriptorISO639LanguageAndAudioTypeLength x | none => 0
  | 0x58 => match d.LocalTimeOffset with
    | some x => calcDescriptorLocalTimeOffsetLength x | none => 0
  | 0xe => match d.MaximumBitrate with
    | some x => calcDescriptorMaximumBitrateLength x | none => 0
  | 0x40 => match d.NetworkName with | some x => calcDescriptorNetworkNameLength x | none => 0
  | 0x55 => match d.ParentalRating with
    | some x => calcDescriptorParentalRatingLength x | none => 0
  | 0xf => match d.PrivateDataIndicator with
    | some x => calcDescriptorPrivateDataIndicatorLength x | none => 0
  | 0x5f => match d.PrivateDataSpecifier with
    | some x => calcDescriptorPrivateDataSpecifierLength x | none => 0
  | 0x5 => match d.Registration with
    | some x => calcDescriptorRegistrationLength x | none => 0
  | 0x48 => match d.Service with | some x => calcDescriptorServiceLength x | none => 0
  | 0x4d => match d.ShortEvent with | some x => calcDescriptorShortEventLength x | none => 0
  | 0x52 => match d.StreamIdentifier with
    | some x => calcDescriptorStreamIdentifierLength x | none => 0
  | 0x59 => match d.Subtitling with | some x => calcDescriptorSubtitlingLength x | none => 0
  | 0x56 => match d.Teletext with | some x => calcDescriptorTeletextLength x | none => 0
  | 0x45 => match d.VBIData with | some x => calcDescriptorVBIDataLength x | none => 0
  | 0x46 => match d.VBITeletext with | some x => calcDescriptorTeletextLength x | none => 0
  | _ => match d.Unknown with | some x => calcDescriptorUnknownLength x | none => 0

/-- Dispatched payload writer of a descriptor. -/
def writeDescriptorPayload (wr : Sink σ) (st : LWBitsWriter σ) (d : Descriptor) : WURes σ :=
  if 0x80 ≤ d.Tag ∧ d.Tag ≤ 0xfe then writeDescriptorUserDefined wr st d.UserDefined
  else match d.Tag with
  | 0x6a => match d.AC3 with
    | some x => writeDescriptorAC3 wr st x | none => (.error .nilDeref, st)
  | 0x28 => match d.AVCVideo with
    | some x => writeDescriptorAVCVideo wr st x | none => (.error .nilDeref, st)
  | 0x50 => match d.Component with
    | some x => writeDescriptorComponent wr st x | none => (.error .nilDeref, st)
  | 0x54 => match d.Content with
    | some x => writeDescriptorContent wr st x | none => (.error .nilDeref, st)
  | 0x6 => match d.DataStreamAlignment with
    | some x => writeDescriptorDataStreamAlignment wr st x | none => (.error .nilDeref, st)
  | 0x7a => match d.EnhancedAC3 with
    | some x => writeDescriptorEnhancedAC3 wr st x | none => (.error .nilDeref, st)
  | 0x4e => match d.ExtendedEvent with
    | some x => writeDescriptorExtendedEvent wr st x | none => (.error .nilDeref, st)
  | 0x7f => match d.Extension with
    | some x => writeDescriptorExtension wr st x | none => (.error .nilDeref, st)
  | 0xa => match d.ISO639LanguageAndAudioType with
    | some x => writeDescriptorISO639LanguageAndAudioType wr st x
    | none => (.error .nilDeref, st)
  | 0x58 => match d.LocalTimeOffset with
    | some x => writeDescriptorLocalTimeOffset wr st x | none => (.error .nilDeref, st)
  | 0xe => match d.MaximumBitrate with
    | some x => writeDescriptorMaximumBitrate wr st x | none => (.error .nilDeref, st)
  | 0x40 => match d.NetworkName with
    | some x => writeDescriptorNetworkName wr st x | none => (.error .nilDeref, st)
  | 0x55 => match d.ParentalRating with
    | some x => writeDescriptorParentalRating wr st x | none => (.error .nilDeref, st)
  | 0xf => match d.PrivateDataIndicator with
    | some x => writeDescriptorPrivateDataIndicator wr st x | none => (.error .nilDeref, st)
  | 0x5f => match d.PrivateDataSpecifier with
    | some x => writeDescriptorPrivateDataSpecifier wr st x | none => (.error .nilDeref, st)
  | 0x5 => match d.Registration with
    | some x => writeDescriptorRegistration wr st x | none => (.error .nilDeref, st)
  | 0x48 => match d.Service with
    | some x => writeDescriptorService wr st x | none => (.error .nilDeref, st)
  | 0x4d => match d.ShortEvent with
    | some x => writeDescriptorShortEvent wr st x | none => (.error .nilDeref, st)
  | 0x52 => match d.StreamIdentifier with
    | some x => writeDescriptorStreamIdentifier wr st x | none => (.error .nilDeref, st)
  | 0x59 => match d.Subtitling with
    | some x => writeDescriptorSubtitling wr st x | none => (.error .nilDeref, st)
  | 0x56 => match d.Teletext with
    | some x => writeDescriptorTeletext wr st x | none => (.error .nilDeref, st)
  | 0x45 => match d.VBIData with
    | some x => writeDescriptorVBIData wr st x | none => (.error .nilDeref, st)
  | 0x46 => match d.VBITeletext with
    | some x => writeDescriptorTeletext wr st x | none => (.error .nilDeref, st)
  | _ => match d.Unknown with
    | some x => writeDescriptorUnknown wr st x | none => (.error .nilDeref, st)

/-- Writes one descriptor: tag byte, computed length byte, then the
dispatched payload; the returned byte count is computed from the length
byte, not from the payload writer. -/
def writeDescriptor (wr : Sink σ) (st : LWBitsWriter σ) (d : Descriptor) : WRes σ :=
  let length := calcDescriptorLength d
  let st := WriteByte wr st d.Tag
  let st := WriteByte wr st length
  match st.err with
  | some e => (.error e, st)
  | none =>
    let written := length + 2
    match writeDescriptorPayload wr st d with
    | (.error e, st) => (.error e, st)
    | (.ok _, st) => (.ok written, st)

/-- Total serialized length of a descriptor list (`uint16` arithmetic). -/
def calcDescriptorsLength (ds : List Descriptor) : Nat :=
  (ds.foldl (fun length d => length + 2 + calcDescriptorLength d) 0) % 65536

/-- Entry loop of the descriptor list writer. -/
def writeDescriptorsLoop (wr : Sink σ) :
    List Descriptor → Nat → LWBitsWriter σ → WRes σ
  | [], written, st => (.ok written, st)
  | d :: ds, written, st =>
    match writeDescriptor wr st d with
    | (.error e, st) => (.error e, st)
    | (.ok n, st) => writeDescriptorsLoop wr ds (written + n) st

/-- Writes a descriptor list without the length prefix. -/
def writeDescriptors (wr : Sink σ) (st : LWBitsWriter σ) (ds : List Descriptor) : WRes σ :=
  writeDescriptorsLoop wr ds 0 st

/-- Writes a descriptor list preceded by 4 reserved bits and the 12-bit
total length. -/
def writeDescriptorsWithLength (wr : Sink σ) (st : LWBitsWriter σ)
    (ds : List Descriptor) : WRes σ :=
  let length := calcDescriptorsLength ds
  let st := WriteBits wr st 0xff 4
  let st := WriteBits wr st length 12
  match st.err with
  | some e => (.error e, st)
  | none =>
    match writeDescriptors wr st ds with
    | (.error e, st) => (.error e, st)
    | (.ok written, st) => (.ok (written + 2), st)

end DescriptorWrite

/-! ### Reader-level support lemmas -/

/-- Characterization of a successful `NextByte`. -/
theorem nextByte_ok {it it2 : BytesIterator} {b : Nat}
    (h : it.NextByte = (.ok b, it2)) :
    b = it.bs.getD it.offset 0 ∧ it2 = { it with offset := it.offset + 1 } ∧
      it.offset < it.bs.length := by
  unfold BytesIterator.NextByte at h
  split at h <;> simp_all <;> omega

/-- Characterization of a successful `NextBytes`. -/
theorem nextBytes_ok {it it2 : BytesIterator} {n : Nat} {bs : List Nat}
    (h : it.NextBytes n = (.ok bs, it2)) :
    bs = (it.bs.drop it.offset).take n ∧ it2 = { it with offset := it.offset + n } ∧
      it.offset + n ≤ it.bs.length := by
  unfold BytesIterator.NextBytes at h
  split at h <;> simp_all

/-- Reads inside a `take` of a `drop` address the base buffer. -/
theorem getD_drop_take (l : List Nat) (i k j : Nat) (hj : j < k) :
    ((l.drop i).take k).getD j 0 = l.getD (i + j) 0 := by
  simp [List.getD_eq_getElem?_getD, List.getElem?_take, hj, List.getElem?_drop]

/-- The adaptation-field body parser returns the length it was given. -/
theorem parseAFBody_length (len : Nat) (it : BytesIterator) (a : PacketAdaptationField)
    (it2 : BytesIterator) (h : parseAFBody len it = (.ok a, it2)) : a.Length = len := by
  unfold parseAFBody at h
  simp only [pbind, optParse] at h
  repeat' split at h
  all_goals first
    | (rcases h with ⟨rfl, rfl⟩; rfl)
    | simp_all

/-! ### Parse-level claims -/

/-- C8: on an input whose first byte is not the sync byte 0x47,
`parsePacket` fails with the sync-byte-missing error, having consumed
exactly one byte: the iterator ends at the following byte and the buffer
is untouched. -/
theorem parsePacket_sync_byte_missing (it : BytesIterator) (s : Option (Packet → Bool))
    (hlen : it.offset < it.bs.length) (hb : it.bs.getD it.offset 0 ≠ 0x47) :
    parsePacket it s = (.error .syncByteMissing, { it with offset := it.offset + 1 }) := by
  unfold parsePacket BytesIterator.NextByte
  rw [if_neg (by omega)]
  rw [pbind_ok]
  exact if_pos (by simpa [syncByte] using hb)

/-- Witness for C8 at a concrete non-sync first byte. -/
theorem parsePacket_sync_byte_missing_witness :
    parsePacket ⟨[0x12, 0x47, 0x03], 0⟩ none =
      (.error .syncByteMissing, ⟨[0x12, 0x47, 0x03], 1⟩) :=
  parsePacket_sync_byte_missing ⟨[0x12, 0x47, 0x03], 0⟩ none (by decide) (by decide)

/-- C6: the splice countdown byte is taken unsigned by the parser: on an
adaptation field `[length 2, flags 0x04, countdown byte 0xFF]` the parsed
SpliceCountdown is 255, not the two's-complement value -1 that the
specification and the field's own documentation describe. -/
theorem spliceCountdown_unsigned_at_0xFF :
    (parsePacketAdaptationField ⟨[2, 0x04, 0xFF], 0⟩).1.map
        PacketAdaptationField.SpliceCountdown = .ok 255 ∧
    (Except.ok (255 : Int) : Except Err Int) ≠ .ok (-1) := by
  constructor
  · rfl
  · decide

/-- C10: whenever the adaptation-field parser succeeds, StuffingLength is
exactly the declared length minus the bytes consumed after the length
byte (the difference of the final and initial offsets less the length
byte itself), with no validation, and the Length field is the declared
length byte. -/
theorem adaptationField_stuffingLength_no_validation (it : BytesIterator)
    (a : PacketAdaptationField) (it2 : BytesIterator)
    (h : parsePacketAdaptationField it = (.ok a, it2)) :
    a.StuffingLength = (a.Length : Int) - ((it2.offset : Int) - ((it.offset : Int) + 1)) ∧
    a.Length = it.bs.getD it.offset 0 := by
  unfold parsePacketAdaptationField at h
  simp only [pbind] at h
  split at h
  · simp_all
  next b it1 heq =>
    obtain ⟨hb, hit1, hoff⟩ := nextByte_ok heq
    split at h
    · simp_all
    next a0 itx heq2 =>
      simp only [Prod.mk.injEq, Except.ok.injEq] at h
      obtain ⟨h1, h2⟩ := h
      subst h1
      subst h2
      by_cases hlenpos : 0 < b
      · rw [if_pos hlenpos] at heq2
        have hl := parseAFBody_length b it1 a0 itx heq2
        simp [BytesIterator.Offset, hl, hit1, hb]
      · rw [if_neg hlenpos] at heq2
        simp only [Prod.mk.injEq, Except.ok.injEq] at heq2
        obtain ⟨h3, h4⟩ := heq2
        subst h3
        subst h4
        simp [BytesIterator.Offset, hit1, hb]

/-- The adaptation field parsed by the C10 witness. -/
def c10WitnessAF : PacketAdaptationField :=
  { PacketAdaptationField.empty with
    Length := 1
    HasPCR := true
    PCR := some { Base := 33818120, Extension := 262 }
    StuffingLength := -6 }

/-- Witness for C10: a declared length of 1 whose flag byte enables the
6-byte PCR; the parse succeeds and StuffingLength is the negative
value 1 - 7 = -6. -/
theorem adaptationField_stuffingLength_no_validation_witness :
    ∃ a it2, parsePacketAdaptationField ⟨[1, 0x10, 1, 2, 3, 4, 5, 6], 0⟩ = (.ok a, it2) ∧
      a.StuffingLength = (a.Length : Int) -
        ((it2.offset : Int) - (((⟨[1, 0x10, 1, 2, 3, 4, 5, 6], 0⟩ : BytesIterator).offset : Int) + 1)) ∧
      a.StuffingLength = -6 := by
  have h : parsePacketAdaptationField ⟨[1, 0x10, 1, 2, 3, 4, 5, 6], 0⟩ =
      (.ok c10WitnessAF, ⟨[1, 0x10, 1, 2, 3, 4, 5, 6], 8⟩) := by rfl
  exact ⟨_, _, h, (adaptationField_stuffingLength_no_validation _ _ _ h).1, by decide⟩

/-- C4: whenever one descriptor entry parses successfully, the iterator is
positioned exactly at the entry start plus 2 plus the declared length
byte afterwards, regardless of how many bytes the inner variant parser
consumed. -/
theorem descriptorEntry_seek_to_declared_end (it : BytesIterator) (d : Descriptor)
    (it2 : BytesIterator) (h : parseDescriptorEntry it = (.ok d, it2)) :
    it2.offset = it.offset + 2 + it.bs.getD (it.offset + 1) 0 := by
  unfold parseDescriptorEntry at h
  obtain ⟨bs, it1, h1, h⟩ := pbind_eq_ok h
  obtain ⟨hbs, hit1, havail⟩ := nextBytes_ok h1
  subst hbs
  subst hit1
  simp only [getD_drop_take it.bs it.offset 2 1 (by omega),
    getD_drop_take it.bs it.offset 2 0 (by omega)] at h
  split at h
  · next hpos =>
    obtain ⟨dd, it3, h2, h3⟩ := pbind_eq_ok h
    simp only [Prod.mk.injEq, Except.ok.injEq] at h3
    obtain ⟨h4, h5⟩ := h3
    subst h4
    subst h5
    simp [BytesIterator.Seek]
    omega
  · next hneg =>
    simp only [Prod.mk.injEq, Except.ok.injEq] at h
    obtain ⟨h4, h5⟩ := h
    subst h4
    subst h5
    simp at hneg
    simp [hneg]

/-- The descriptor parsed by the C4 witness. -/
def c4WitnessD : Descriptor :=
  { Descriptor.empty with Tag := 0x52, Length := 2, StreamIdentifier := some ⟨0xAA⟩ }

/-- Witness for C4: an entry declaring length 2 whose StreamIdentifier
parser consumes only 1 byte; the iterator still lands at start + 2 + 2,
and the following entry is parsed from there (full list evaluated). -/
theorem descriptorEntry_seek_to_declared_end_witness :
    (∃ d it2, parseDescriptorEntry ⟨[0x52, 0x02, 0xAA, 0xBB, 0x52, 0x01, 0xCC], 0⟩ =
        (.ok d, it2) ∧ it2.offset = 0 + 2 + 2) ∧
    (parseDescriptors ⟨[0xF0, 0x07, 0x52, 0x02, 0xAA, 0xBB, 0x52, 0x01, 0xCC], 0⟩).1.map
      (fun ds => ds.map (fun d => (d.Tag, d.StreamIdentifier))) =
      .ok [(0x52, some ⟨0xAA⟩), (0x52, some ⟨0xCC⟩)] := by
  constructor
  · have h : parseDescriptorEntry ⟨[0x52, 0x02, 0xAA, 0xBB, 0x52, 0x01, 0xCC], 0⟩ =
        (.ok c4WitnessD, ⟨[0x52, 0x02, 0xAA, 0xBB, 0x52, 0x01, 0xCC], 4⟩) := by rfl
    exact ⟨_, _, h, descriptorEntry_seek_to_declared_end _ _ _ h⟩
  · rfl

/-- C9: a descriptor entry whose length byte is 0 consumes exactly the two
envelope bytes, yields a descriptor with only Tag and Length set (every
variant field absent), and performs no seek: parsing continues at the
immediately following byte. -/
theorem descriptorEntry_zero_length (it : BytesIterator)
    (h2 : it.offset + 2 ≤ it.bs.length)
    (hlen : it.bs.getD (it.offset + 1) 0 = 0) :
    parseDescriptorEntry it =
      (.ok { Descriptor.empty with Tag := it.bs.getD it.offset 0, Length := 0 },
       { it with offset := it.offset + 2 }) := by
  unfold parseDescriptorEntry BytesIterator.NextBytesNoCopy BytesIterator.NextBytes
  rw [if_neg (by omega)]
  rw [pbind_ok]
  simp only [getD_drop_take it.bs it.offset 2 1 (by omega),
    getD_drop_take it.bs it.offset 2 0 (by omega), hlen]
  simp

/-- Witness for C9 at a concrete zero-length entry, plus the list-level
behavior: the descriptor is appended and the next entry parsed right
after the envelope. -/
theorem descriptorEntry_zero_length_witness :
    parseDescriptorEntry ⟨[0x52, 0x00, 0x52, 0x01, 0xAB], 0⟩ =
      (.ok { Descriptor.empty with Tag := 0x52, Length := 0 },
       ⟨[0x52, 0x00, 0x52, 0x01, 0xAB], 2⟩) ∧
    (parseDescriptors ⟨[0xF0, 0x05, 0x52, 0x00, 0x52, 0x01, 0xAB], 0⟩).1.map
      (fun ds => ds.map (fun d => (d.Tag, d.Length, d.StreamIdentifier))) =
      .ok [(0x52, 0, none), (0x52, 1, some ⟨0xAB⟩)] := by
  constructor
  · exact descriptorEntry_zero_length ⟨[0x52, 0x00, 0x52, 0x01, 0xAB], 0⟩ (by decide) (by decide)
  · rfl

/-! ### Emission lemmas for the bit writer over the pure list sink

These characterize each writer operation on a byte-aligned or
partially-filled cache state, so that the exact byte output of every
serializer can be computed symbolically. -/

section Emission

open LWBitsWriter

/-- Weight of a flag bit (used by the pure byte-level encoders). -/
def bitv (b : Bool) (k : Nat) : Nat := if b then k else 0

@[simp] theorem flush_pure (out : List Nat) (c k b : Nat) :
    flushBsCache listSink ⟨out, c, k, none⟩ b = ⟨out ++ [b], c, k, none⟩ := by
  simp [LWBitsWriter.flushBsCache, listSink]

@[simp] theorem writeByte_pure (out : List Nat) (b : Nat) :
    WriteByte listSink ⟨out, 0, 0, none⟩ b = ⟨out ++ [b % 256], 0, 0, none⟩ := by
  simp [LWBitsWriter.WriteByte]

@[simp] theorem writeSlice_pure (out l : List Nat) :
    WriteSlice listSink ⟨out, 0, 0, none⟩ l = ⟨out ++ l.map (· % 256), 0, 0, none⟩ := by
  unfold LWBitsWriter.WriteSlice
  dsimp only
  split
  · next he => simp_all [List.isEmpty_iff]
  · simp [listSink]

theorem wbaZero (wr : Sink (List Nat)) (fuel t : Nat) (st : LWBitsWriter (List Nat)) :
    writeBitsAux wr fuel 0 t st = st := by
  cases fuel <;> simp [writeBitsAux]

theorem wbaBig (fuel n t : Nat) (out : List Nat) (h8 : 8 ≤ n) (hf : 0 < fuel) :
    writeBitsAux listSink fuel n t ⟨out, 0, 0, none⟩ =
      writeBitsAux listSink (fuel - 1) (n - 8) t ⟨out ++ [(t >>> (n - 8)) % 256], 0, 0, none⟩ := by
  cases fuel with
  | zero => omega
  | succ f =>
    conv_lhs => rw [writeBitsAux]
    rw [if_neg (by omega)]
    simp [h8]

theorem wbaSmall (fuel n t : Nat) (out : List Nat) (h1 : 0 < n) (h8 : n < 8) (hf : 0 < fuel) :
    writeBitsAux listSink fuel n t ⟨out, 0, 0, none⟩ =
      ⟨out, (t <<< (8 - n)) % 256, n, none⟩ := by
  cases fuel with
  | zero => omega
  | succ f =>
    conv_lhs => rw [writeBitsAux]
    rw [if_neg (by omega)]
    simp [Nat.not_le.mpr h8]

theorem wbaFill (fuel n t c : Nat) (out : List Nat) (k : Nat) (h1 : 0 < n) (hk : 0 < k)
    (hk8 : k < 8) (hn : n = 8 - k) (hf : 0 < fuel) :
    writeBitsAux listSink fuel n t ⟨out, c, k, none⟩ =
      ⟨out ++ [c ||| (t <<< (8 - k - n)) % 256], 0, 0, none⟩ := by
  cases fuel with
  | zero => omega
  | succ f =>
    conv_lhs => rw [writeBitsAux]
    rw [if_neg (by omega)]
    dsimp only
    rw [if_neg (by omega)]
    have hmin : min n (8 - k) = n := by omega
    rw [hmin]
    rw [if_pos (by omega : n ≤ 8 - k)]
    rw [if_pos (by omega : k + n = 8)]
    simp [wbaZero]

theorem wbaPartialSmall (fuel n t c : Nat) (out : List Nat) (k : Nat) (h1 : 0 < n) (hk : 0 < k)
    (hk8 : k < 8) (hn : n < 8 - k) (hf : 0 < fuel) :
    writeBitsAux listSink fuel n t ⟨out, c, k, none⟩ =
      ⟨out, c ||| (t <<< (8 - k - n)) % 256, k + n, none⟩ := by
  cases fuel with
  | zero => omega
  | succ f =>
    conv_lhs => rw [writeBitsAux]
    rw [if_neg (by omega)]
    dsimp only
    rw [if_neg (by omega)]
    have hmin : min n (8 - k) = n := by omega
    rw [hmin]
    rw [if_pos (by omega : n ≤ 8 - k)]
    rw [if_neg (by omega : ¬(k + n = 8))]
    simp [wbaZero]

theorem wbaSpan (fuel n t c : Nat) (out : List Nat) (k : Nat) (hk : 0 < k)
    (hk8 : k < 8) (hn : 8 - k < n) (hf : 0 < fuel) :
    writeBitsAux listSink fuel n t ⟨out, c, k, none⟩ =
      writeBitsAux listSink (fuel - 1) (n - (8 - k)) t
        ⟨out ++ [c ||| (t >>> (n - (8 - k))) % 256], 0, 0, none⟩ := by
  cases fuel with
  | zero => omega
  | succ f =>
    conv_lhs => rw [writeBitsAux]
    rw [if_neg (by omega)]
    dsimp only
    rw [if_neg (by omega)]
    have hmin : min n (8 - k) = 8 - k := by omega
    rw [hmin]
    rw [if_neg (by omega : ¬(n ≤ 8 - k))]
    rw [if_pos (by omega : k + (8 - k) = 8)]
    simp

theorem writeBit_step (out : List Nat) (c k : Nat) (b : Bool) (hk : k < 7) :
    WriteBit listSink ⟨out, c, k, none⟩ b =
      ⟨out, if b then c ||| (1 <<< (7 - k)) else c, k + 1, none⟩ := by
  unfold LWBitsWriter.WriteBit
  dsimp only
  rw [if_neg (by omega)]

theorem writeBit_last (out : List Nat) (c : Nat) (b : Bool) :
    WriteBit listSink ⟨out, c, 7, none⟩ b =
      ⟨out ++ [if b then c ||| 1 else c], 0, 0, none⟩ := by
  unfold LWBitsWriter.WriteBit
  cases b <;> simp

/-- Or with a suitably aligned left operand is addition. -/
theorem lor_add_of (k a b : Nat) (ha : a % 2 ^ k = 0) (hb : b < 2 ^ k) :
    a ||| b = a + b := by
  have hdvd : 2 ^ k ∣ a := Nat.dvd_of_mod_eq_zero ha
  obtain ⟨m, rfl⟩ := hdvd
  rw [← Nat.mul_add_lt_is_or hb m]

/-- Masking with an all-ones literal is a remainder. -/
theorem land_mask (x k : Nat) : x &&& (2 ^ k - 1) = x % 2 ^ k :=
  Nat.and_pow_two_sub_one_eq_mod x k

end Emission

/-! ### Byte-level descriptor encodings and well-formedness

`enc...` computes, purely at the byte level, the payload the writer emits
for a well-formed variant value; `wfb...` is the (decidable)
well-formedness: field values within their wire ranges, byte slices made
of bytes, lengths within the one-byte budget, values of absent optional
fields at their zero defaults, and exactly the tag-selected variant
present. These are the canonicity conditions under which the round-trip
and length-agreement claims hold. -/

/-- All elements are byte values. -/
def bytesLT256 (l : List Nat) : Bool := l.all (fun b => decide (b < 256))

/-- AC3 payload encoding. -/
def encAC3 (d : DescriptorAC3) : List Nat :=
  [bitv d.HasComponentType 128 + bitv d.HasBSID 64 + bitv d.HasMainID 32 +
    bitv d.HasASVC 16 + 15] ++
  (if d.HasComponentType then [d.ComponentType] else []) ++
  (if d.HasBSID then [d.BSID] else []) ++
  (if d.HasMainID then [d.MainID] else []) ++
  (if d.HasASVC then [d.ASVC] else []) ++ d.AdditionalInfo

/-- AC3 well-formedness. -/
def wfbAC3 (d : DescriptorAC3) : Bool :=
  decide (d.ComponentType < 256) && decide (d.BSID < 256) && decide (d.MainID < 256) &&
  decide (d.ASVC < 256) && bytesLT256 d.AdditionalInfo &&
  (d.HasComponentType || decide (d.ComponentType = 0)) &&
  (d.HasBSID || decide (d.BSID = 0)) && (d.HasMainID || decide (d.MainID = 0)) &&
  (d.HasASVC || decide (d.ASVC = 0)) && decide ((encAC3 d).length ≤ 255)

/-- AVC video payload encoding. -/
def encAVCVideo (d : DescriptorAVCVideo) : List Nat :=
  [d.ProfileIDC,
   bitv d.ConstraintSet0Flag 128 + bitv d.ConstraintSet1Flag 64 +
     bitv d.ConstraintSet2Flag 32 + d.CompatibleFlags,
   d.LevelIDC,
   bitv d.AVCStillPresent 128 + bitv d.AVC24HourPictureFlag 64 + 63]

/-- AVC video well-formedness. -/
def wfbAVCVideo (d : DescriptorAVCVideo) : Bool :=
  decide (d.ProfileIDC < 256) && decide (d.LevelIDC < 256) && decide (d.CompatibleFlags < 32)

/-- Component payload encoding. -/
def encComponent (d : DescriptorComponent) : List Nat :=
  [d.StreamContentExt * 16 + d.StreamContent, d.ComponentType, d.ComponentTag] ++
  d.ISO639LanguageCode ++ d.Text

/-- Component well-formedness. -/
def wfbComponent (d : DescriptorComponent) : Bool :=
  decide (d.StreamContentExt < 16) && decide (d.StreamContent < 16) &&
  decide (d.ComponentType < 256) && decide (d.ComponentTag < 256) &&
  decide (d.ISO639LanguageCode.length = 3) && bytesLT256 d.ISO639LanguageCode &&
  bytesLT256 d.Text && decide ((encComponent d).length ≤ 255)

/-- Content item encoding. -/
def encContentItem (i : DescriptorContentItem) : List Nat :=
  [i.ContentNibbleLevel1 * 16 + i.ContentNibbleLevel2, i.UserByte]

/-- Content payload encoding. -/
def encContent (d : DescriptorContent) : List Nat :=
  d.Items.flatMap encContentItem

/-- Content well-formedness. -/
def wfbContent (d : DescriptorContent) : Bool :=
  d.Items.all (fun i => decide (i.ContentNibbleLevel1 < 16) &&
    decide (i.ContentNibbleLevel2 < 16) && decide (i.UserByte < 256)) &&
  decide (0 < d.Items.length) && decide ((encContent d).length ≤ 255)

/-- Data stream alignment payload encoding. -/
def encDataStreamAlignment (d : DescriptorDataStreamAlignment) : List Nat := [d.Type']

/-- Data stream alignment well-formedness. -/
def wfbDataStreamAlignment (d : DescriptorDataStreamAlignment) : Bool :=
  decide (d.Type' < 256)

/-- Enhanced AC3 payload encoding. -/
def encEnhancedAC3 (d : DescriptorEnhancedAC3) : List Nat :=
  [bitv d.HasComponentType 128 + bitv d.HasBSID 64 + bitv d.HasMainID 32 +
    bitv d.HasASVC 16 + bitv d.MixInfoExists 8 + bitv d.HasSubStream1 4 +
    bitv d.HasSubStream2 2 + bitv d.HasSubStream3 1] ++
  (if d.HasComponentType then [d.ComponentType] else []) ++
  (if d.HasBSID then [d.BSID] else []) ++
  (if d.HasMainID then [d.MainID] else []) ++
  (if d.HasASVC then [d.ASVC] else []) ++
  (if d.HasSubStream1 then [d.SubStream1] else []) ++
  (if d.HasSubStream2 then [d.SubStream2] else []) ++
  (if d.HasSubStream3 then [d.SubStream3] else []) ++ d.AdditionalInfo

/-- Enhanced AC3 well-formedness. -/
def wfbEnhancedAC3 (d : DescriptorEnhancedAC3) : Bool :=
  decide (d.ComponentType < 256) && decide (d.BSID < 256) && decide (d.MainID < 256) &&
  decide (d.ASVC < 256) && decide (d.SubStream1 < 256) && decide (d.SubStream2 < 256) &&
  decide (d.SubStream3 < 256) && bytesLT256 d.AdditionalInfo &&
  (d.HasComponentType || decide (d.ComponentType = 0)) &&
  (d.HasBSID || decide (d.BSID = 0)) && (d.HasMainID || decide (d.MainID = 0)) &&
  (d.HasASVC || decide (d.ASVC = 0)) && (d.HasSubStream1 || decide (d.SubStream1 = 0)) &&
  (d.HasSubStream2 || decide (d.SubStream2 = 0)) &&
  (d.HasSubStream3 || decide (d.SubStream3 = 0)) &&
  decide ((encEnhancedAC3 d).length ≤ 255)

/-- Extended event item encoding. -/
def encExtendedEventItem (i : DescriptorExtendedEventItem) : List Nat :=
  [i.Description.length] ++ i.Description ++ [i.Content.length] ++ i.Content

/-- Extended event payload encoding. -/
def encExtendedEvent (d : DescriptorExtendedEvent) : List Nat :=
  [d.Number * 16 + d.LastDescriptorNumber] ++ d.ISO639LanguageCode ++
  [(d.Items.flatMap encExtendedEventItem).length] ++ d.Items.flatMap encExtendedEventItem ++
  [d.Text.length] ++ d.Text

/-- Extended event well-formedness. -/
def wfbExtendedEvent (d : DescriptorExtendedEvent) : Bool :=
  decide (d.Number < 16) && decide (d.LastDescriptorNumber < 16) &&
  decide (d.ISO639LanguageCode.length = 3) && bytesLT256 d.ISO639LanguageCode &&
  d.Items.all (fun i => decide (i.Description.length ≤ 255) &&
    bytesLT256 i.Description && decide (i.Content.length ≤ 255) && bytesLT256 i.Content) &&
  decide ((d.Items.flatMap encExtendedEventItem).length ≤ 255) &&
  decide (d.Text.length ≤ 255) && bytesLT256 d.Text &&
  decide ((encExtendedEvent d).length ≤ 255)

/-- Supplementary audio payload encoding. -/
def encSupplementaryAudio (sa : DescriptorExtensionSupplementaryAudio) : List Nat :=
  [bitv sa.MixType 128 + sa.EditorialClassification * 4 + 2 + bitv sa.HasLanguageCode 1] ++
  (if sa.HasLanguageCode then sa.LanguageCode else []) ++ sa.PrivateData

/-- Supplementary audio well-formedness. -/
def wfbSupplementaryAudio (sa : DescriptorExtensionSupplementaryAudio) : Bool :=
  decide (sa.EditorialClassification < 32) && bytesLT256 sa.PrivateData &&
  (if sa.HasLanguageCode then decide (sa.LanguageCode.length = 3) && bytesLT256 sa.LanguageCode
   else decide (sa.LanguageCode = []))

/-- Extension payload encoding. -/
def encExtension (d : DescriptorExtension) : List Nat :=
  [d.Tag] ++
  (if d.Tag = DescriptorTagExtensionSupplementaryAudio then
    match d.SupplementaryAudio with
    | some sa => encSupplementaryAudio sa
    | none => []
  else d.Unknown.getD [])

/-- Extension well-formedness. -/
def wfbExtension (d : DescriptorExtension) : Bool :=
  decide (d.Tag < 256) &&
  (if d.Tag = DescriptorTagExtensionSupplementaryAudio then
    match d.SupplementaryAudio with
    | some sa => wfbSupplementaryAudio sa && decide (d.Unknown = none)
    | none => false
  else
    match d.Unknown with
    | some u => bytesLT256 u && decide (d.SupplementaryAudio = none)
    | none => false) &&
  decide ((encExtension d).length ≤ 255)

/-- ISO639 language and audio type payload encoding. -/
def encISO639 (d : DescriptorISO639LanguageAndAudioType) : List Nat :=
  d.Language ++ [d.Type']

/-- ISO639 well-formedness: exactly three language bytes. -/
def wfbISO639 (d : DescriptorISO639LanguageAndAudioType) : Bool :=
  decide (d.Language.length = 3) && bytesLT256 d.Language && decide (d.Type' < 256)

/-- Local time offset item encoding. -/
def encLocalTimeOffsetItem (i : DescriptorLocalTimeOffsetItem) : List Nat :=
  i.CountryCode ++ [i.CountryRegionID * 4 + 2 + bitv i.LocalTimeOffsetPolarity 1] ++
  i.LocalTimeOffset.bytes ++ i.TimeOfChange.bytes ++ i.NextTimeOffset.bytes

/-- Local time offset payload encoding. -/
def encLocalTimeOffset (d : DescriptorLocalTimeOffset) : List Nat :=
  d.Items.flatMap encLocalTimeOffsetItem

/-- Local time offset well-formedness. -/
def wfbLocalTimeOffset (d : DescriptorLocalTimeOffset) : Bool :=
  d.Items.all (fun i => decide (i.CountryCode.length = 3) && bytesLT256 i.CountryCode &&
    decide (i.CountryRegionID < 64) &&
    decide (i.LocalTimeOffset.bytes.length = 2) && bytesLT256 i.LocalTimeOffset.bytes &&
    decide (i.TimeOfChange.bytes.length = 5) && bytesLT256 i.TimeOfChange.bytes &&
    decide (i.NextTimeOffset.bytes.length = 2) && bytesLT256 i.NextTimeOffset.bytes) &&
  decide (0 < d.Items.length) && decide ((encLocalTimeOffset d).length ≤ 255)

/-- Maximum bitrate payload encoding. -/
def encMaximumBitrate (d : DescriptorMaximumBitrate) : List Nat :=
  [192 + (d.Bitrate / 50) >>> 16, (d.Bitrate / 50) >>> 8 % 256, d.Bitrate / 50 % 256]

/-- Maximum bitrate well-formedness. -/
def wfbMaximumBitrate (d : DescriptorMaximumBitrate) : Bool :=
  decide (d.Bitrate % 50 = 0) && decide (d.Bitrate / 50 < 2 ^ 22)

/-- Network name payload encoding. -/
def encNetworkName (d : DescriptorNetworkName) : List Nat := d.Name

/-- Network name well-formedness. -/
def wfbNetworkName (d : DescriptorNetworkName) : Bool :=
  bytesLT256 d.Name && decide (0 < d.Name.length) && decide (d.Name.length ≤ 255)

/-- Parental rating item encoding. -/
def encParentalRatingItem (i : DescriptorParentalRatingItem) : List Nat :=
  i.CountryCode ++ [i.Rating]

/-- Parental rating payload encoding. -/
def encParentalRating (d : DescriptorParentalRating) : List Nat :=
  d.Items.flatMap encParentalRatingItem

/-- Parental rating well-formedness. -/
def wfbParentalRating (d : DescriptorParentalRating) : Bool :=
  d.Items.all (fun i => decide (i.CountryCode.length = 3) && bytesLT256 i.CountryCode &&
    decide (i.Rating < 256)) &&
  decide (0 < d.Items.length) && decide ((encParentalRating d).length ≤ 255)

/-- Big-endian four-byte encoding of a 32-bit value. -/
def encU32 (v : Nat) : List Nat :=
  [v >>> 24 % 256, v >>> 16 % 256, v >>> 8 % 256, v % 256]

/-- Private data indicator payload encoding. -/
def encPrivateDataIndicator (d : DescriptorPrivateDataIndicator) : List Nat :=
  encU32 d.Indicator

/-- Private data indicator well-formedness. -/
def wfbPrivateDataIndicator (d : DescriptorPrivateDataIndicator) : Bool :=
  decide (d.Indicator < 2 ^ 32)

/-- Private data specifier payload encoding. -/
def encPrivateDataSpecifier (d : DescriptorPrivateDataSpecifier) : List Nat :=
  encU32 d.Specifier

/-- Private data specifier well-formedness. -/
def wfbPrivateDataSpecifier (d : DescriptorPrivateDataSpecifier) : Bool :=
  decide (d.Specifier < 2 ^ 32)

/-- Registration payload encoding. -/
def encRegistration (d : DescriptorRegistration) : List Nat :=
  encU32 d.FormatIdentifier ++ d.AdditionalIdentificationInfo

/-- Registration well-formedness. -/
def wfbRegistration (d : DescriptorRegistration) : Bool :=
  decide (d.FormatIdentifier < 2 ^ 32) && bytesLT256 d.AdditionalIdentificationInfo &&
  decide ((encRegistration d).length ≤ 255)

/-- Service payload encoding. -/
def encService (d : DescriptorService) : List Nat :=
  [d.Type', d.Provider.length] ++ d.Provider ++ [d.Name.length] ++ d.Name

/-- Service well-formedness. -/
def wfbService (d : DescriptorService) : Bool :=
  decide (d.Type' < 256) && decide (d.Provider.length ≤ 255) && bytesLT256 d.Provider &&
  decide (d.Name.length ≤ 255) && bytesLT256 d.Name &&
  decide ((encService d).length ≤ 255)

/-- Short event payload encoding. -/
def encShortEvent (d : DescriptorShortEvent) : List Nat :=
  d.Language ++ [d.EventName.length] ++ d.EventName ++ [d.Text.length] ++ d.Text

/-- Short event well-formedness. -/
def wfbShortEvent (d : DescriptorShortEvent) : Bool :=
  decide (d.Language.length = 3) && bytesLT256 d.Language &&
  decide (d.EventName.length ≤ 255) && bytesLT256 d.EventName &&
  decide (d.Text.length ≤ 255) && bytesLT256 d.Text &&
  decide ((encShortEvent d).length ≤ 255)

/-- Stream identifier payload encoding. -/
def encStreamIdentifier (d : DescriptorStreamIdentifier) : List Nat := [d.ComponentTag]

/-- Stream identifier well-formedness. -/
def wfbStreamIdentifier (d : DescriptorStreamIdentifier) : Bool :=
  decide (d.ComponentTag < 256)

/-- Subtitling item encoding. -/
def encSubtitlingItem (i : DescriptorSubtitlingItem) : List Nat :=
  i.Language ++ [i.Type', i.CompositionPageID >>> 8, i.CompositionPageID % 256,
    i.AncillaryPageID >>> 8, i.AncillaryPageID % 256]

/-- Subtitling payload encoding. -/
def encSubtitling (d : DescriptorSubtitling) : List Nat :=
  d.Items.flatMap encSubtitlingItem

/-- Subtitling well-formedness. -/
def wfbSubtitling (d : DescriptorSubtitling) : Bool :=
  d.Items.all (fun i => decide (i.Language.length = 3) && bytesLT256 i.Language &&
    decide (i.Type' < 256) && decide (i.CompositionPageID < 2 ^ 16) &&
    decide (i.AncillaryPageID < 2 ^ 16)) &&
  decide (0 < d.Items.length) && decide ((encSubtitling d).length ≤ 255)

/-- Teletext item encoding (type and magazine in one byte, the page as two
BCD nibbles). -/
def encTeletextItem (i : DescriptorTeletextItem) : List Nat :=
  i.Language ++ [i.Type' * 8 + i.Magazine, i.Page / 10 * 16 + i.Page % 10]

/-- Teletext payload encoding. -/
def encTeletext (d : DescriptorTeletext) : List Nat :=
  d.Items.flatMap encTeletextItem

/-- Teletext well-formedness: the page must keep its tens digit within one
nibble. -/
def wfbTeletext (d : DescriptorTeletext) : Bool :=
  d.Items.all (fun i => decide (i.Language.length = 3) && bytesLT256 i.Language &&
    decide (i.Type' < 32) && decide (i.Magazine < 8) && decide (i.Page < 160)) &&
  decide (0 < d.Items.length) && decide ((encTeletext d).length ≤ 255)

/-- Unknown payload encoding. -/
def encUnknown (d : DescriptorUnknown) : List Nat := d.Content

/-- Unknown well-formedness (relative to the enclosing descriptor's tag,
checked at the descriptor level). -/
def wfbUnknown (d : DescriptorUnknown) : Bool :=
  bytesLT256 d.Content && decide (0 < d.Content.length) && decide (d.Content.length ≤ 255)

/-- VBI data service encoding: known ids carry their line descriptors,
unknown ids the sentinel pair 0x01 0xFF. -/
def encVBIDataService (s : DescriptorVBIDataService) : List Nat :=
  [s.DataServiceID] ++
  (if vbiKnownServiceID s.DataServiceID then
    [s.Descriptors.length] ++ s.Descriptors.map (fun dd => 192 + bitv dd.FieldParity 32 + dd.LineOffset)
  else [1, 255])

/-- VBI data payload encoding. -/
def encVBIData (d : DescriptorVBIData) : List Nat :=
  d.Services.flatMap encVBIDataService

/-- VBI data well-formedness: known services carry exactly one line
descriptor (so the written bytes match the computed length and the
re-parse boundary), unknown services carry none. -/
def wfbVBIData (d : DescriptorVBIData) : Bool :=
  d.Services.all (fun s => decide (s.DataServiceID < 256) &&
    (if vbiKnownServiceID s.DataServiceID then
      decide (s.Descriptors.length = 1) && s.Descriptors.all (fun dd => decide (dd.LineOffset < 32))
    else decide (s.Descriptors = []))) &&
  decide (0 < d.Services.length) && decide ((encVBIData d).length ≤ 255)

/-- All variant fields of a descriptor absent, both fallbacks included. -/
def variantsNone (d : Descriptor) : Bool :=
  d.AC3.isNone && d.AVCVideo.isNone && d.Component.isNone && d.Content.isNone &&
  d.DataStreamAlignment.isNone && d.EnhancedAC3.isNone && d.ExtendedEvent.isNone &&
  d.Extension.isNone && d.ISO639LanguageAndAudioType.isNone && d.LocalTimeOffset.isNone &&
  d.MaximumBitrate.isNone && d.NetworkName.isNone && d.ParentalRating.isNone &&
  d.PrivateDataIndicator.isNone && d.PrivateDataSpecifier.isNone && d.Registration.isNone &&
  d.Service.isNone && d.ShortEvent.isNone && d.StreamIdentifier.isNone &&
  d.Subtitling.isNone && d.Teletext.isNone && d.Unknown.isNone && d.UserDefined.isEmpty &&
  d.VBIData.isNone && d.VBITeletext.isNone

/-- The payload bytes of a well-formed descriptor. -/
def encPayload (d : Descriptor) : List Nat :=
  if 0x80 ≤ d.Tag ∧ d.Tag ≤ 0xfe then d.UserDefined
  else match d.Tag with
  | 0x6a => match d.AC3 with | some x => encAC3 x | none => []
  | 0x28 => match d.AVCVideo with | some x => encAVCVideo x | none => []
  | 0x50 => match d.Component with | some x => encComponent x | none => []
  | 0x54 => match d.Content with | some x => encContent x | none => []
  | 0x6 => match d.DataStreamAlignment with | some x => encDataStreamAlignment x | none => []
  | 0x7a => match d.EnhancedAC3 with | some x => encEnhancedAC3 x | none => []
  | 0x4e => match d.ExtendedEvent with | some x => encExtendedEvent x | none => []
  | 0x7f => match d.Extension with | some x => encExtension x | none => []
  | 0xa => match d.ISO639LanguageAndAudioType with | some x => encISO639 x | none => []
  | 0x58 => match d.LocalTimeOffset with | some x => encLocalTimeOffset x | none => []
  | 0xe => match d.MaximumBitrate with | some x => encMaximumBitrate x | none => []
  | 0x40 => match d.NetworkName with | some x => encNetworkName x | none => []
  | 0x55 => match d.ParentalRating with | some x => encParentalRating x | none => []
  | 0xf => match d.PrivateDataIndicator with | some x => encPrivateDataIndicator x | none => []
  | 0x5f => match d.PrivateDataSpecifier with | some x => encPrivateDataSpecifier x | none => []
  | 0x5 => match d.Registration with | some x => encRegistration x | none => []
  | 0x48 => match d.Service with | some x => encService x | none => []
  | 0x4d => match d.ShortEvent with | some x => encShortEvent x | none => []
  | 0x52 => match d.StreamIdentifier with | some x => encStreamIdentifier x | none => []
  | 0x59 => match d.Subtitling with | some x => encSubtitling x | none => []
  | 0x56 => match d.Teletext with | some x => encTeletext x | none => []
  | 0x45 => match d.VBIData with | some x => encVBIData x | none => []
  | 0x46 => match d.VBITeletext with | some x => encTeletext x | none => []
  | _ => match d.Unknown with | some x => encUnknown x | none => []

/-- Envelope plus payload of a well-formed descriptor. -/
def encDescriptor (d : Descriptor) : List Nat :=
  d.Tag :: calcDescriptorLength d :: encPayload d

/-- Well-formedness of a descriptor: bounded tag, length equal to the
computed length, exactly the tag-selected variant present (with a
well-formed value), both fallbacks empty elsewhere. -/
def descriptorWFb (d : Descriptor) : Bool :=
  decide (d.Tag < 256) && decide (d.Length = calcDescriptorLength d) &&
  (if 0x80 ≤ d.Tag ∧ d.Tag ≤ 0xfe then
    variantsNone { d with UserDefined := [] } && decide (0 < d.UserDefined.length) &&
      decide (d.UserDefined.length ≤ 255) && bytesLT256 d.UserDefined
  else match d.Tag with
  | 0x6a => match d.AC3 with
    | some x => variantsNone { d with AC3 := none } && wfbAC3 x | none => false
  | 0x28 => match d.AVCVideo with
    | some x => variantsNone { d with AVCVideo := none } && wfbAVCVideo x | none => false
  | 0x50 => match d.Component with
    | some x => variantsNone { d with Component := none } && wfbComponent x | none => false
  | 0x54 => match d.Content with
    | some x => variantsNone { d with Content := none } && wfbContent x | none => false
  | 0x6 => match d.DataStreamAlignment with
    | some x => variantsNone { d with DataStreamAlignment := none } &&
        wfbDataStreamAlignment x
    | none => false
  | 0x7a => match d.EnhancedAC3 with
    | some x => variantsNone { d with EnhancedAC3 := none } && wfbEnhancedAC3 x | none => false
  | 0x4e => match d.ExtendedEvent with
    | some x => variantsNone { d with ExtendedEvent := none } && wfbExtendedEvent x
    | none => false
  | 0x7f => match d.Extension with
    | some x => variantsNone { d with Extension := none } && wfbExtension x | none => false
  | 0xa => match d.ISO639LanguageAndAudioType with
    | some x => variantsNone { d with ISO639LanguageAndAudioType := none } && wfbISO639 x
    | none => false
  | 0x58 => match d.LocalTimeOffset with
    | some x => variantsNone { d with LocalTimeOffset := none } && wfbLocalTimeOffset x
    | none => false
  | 0xe => match d.MaximumBitrate with
    | some x => variantsNone { d with MaximumBitrate := none } && wfbMaximumBitrate x
    | none => false
  | 0x40 => match d.NetworkName with
    | some x => variantsNone { d with NetworkName := none } && wfbNetworkName x | none => false
  | 0x55 => match d.ParentalRating with
    | some x => variantsNone { d with ParentalRating := none } && wfbParentalRating x
    | none => false
  | 0xf => match d.PrivateDataIndicator with
    | some x => variantsNone { d with PrivateDataIndicator := none } &&
        wfbPrivateDataIndicator x
    | none => false
  | 0x5f => match d.PrivateDataSpecifier with
    | some x => variantsNone { d with PrivateDataSpecifier := none } &&
        wfbPrivateDataSpecifier x
    | none => false
  | 0x5 => match d.Registration with
    | some x => variantsNone { d with Registration := none } && wfbRegistration x
    | none => false
  | 0x48 => match d.Service with
    | some x => variantsNone { d with Service := none } && wfbService x | none => false
  | 0x4d => match d.ShortEvent with
    | some x => variantsNone { d with ShortEvent := none } && wfbShortEvent x | none => false
  | 0x52 => match d.StreamIdentifier with
    | some x => variantsNone { d with StreamIdentifier := none } && wfbStreamIdentifier x
    | none => false
  | 0x59 => match d.Subtitling with
    | some x => variantsNone { d with Subtitling := none } && wfbSubtitling x | none => false
  | 0x56 => match d.Teletext with
    | some x => variantsNone { d with Teletext := none } && wfbTeletext x | none => false
  | 0x45 => match d.VBIData with
    | some x => variantsNone { d with VBIData := none } && wfbVBIData x | none => false
  | 0x46 => match d.VBITeletext with
    | some x => variantsNone { d with VBITeletext := none } && wfbTeletext x | none => false
  | _ => match d.Unknown with
    | some x => variantsNone { d with Unknown := none } && wfbUnknown x &&
        decide (x.Tag = d.Tag)
    | none => false)

/-! ### Writer latching (C7) -/

section C7
variable {σ : Type}
open LWBitsWriter

/-- Flushing on an errored writer is the identity. -/
theorem flushBsCache_of_err (wr : Sink σ) (st : LWBitsWriter σ) (b : Nat)
    (h : st.err ≠ none) : flushBsCache wr st b = st := by
  unfold LWBitsWriter.flushBsCache
  rw [if_neg h]

theorem WriteBit_of_err (wr : Sink σ) (st : LWBitsWriter σ) (bit : Bool)
    (h : st.err ≠ none) :
    (WriteBit wr st bit).w = st.w ∧ (WriteBit wr st bit).err = st.err := by
  unfold LWBitsWriter.WriteBit
  dsimp only
  split <;> split <;> simp_all [flushBsCache_of_err]

theorem writeBitsAux_of_err (wr : Sink σ) (fuel : Nat) :
    ∀ (n toWrite : Nat) (st : LWBitsWriter σ), st.err ≠ none →
    (writeBitsAux wr fuel n toWrite st).w = st.w ∧
      (writeBitsAux wr fuel n toWrite st).err = st.err := by
  induction fuel with
  | zero => intro n toWrite st h; simp [writeBitsAux]
  | succ fuel ih =>
    intro n toWrite st h
    unfold writeBitsAux
    dsimp only
    split
    · exact ⟨rfl, rfl⟩
    split
    · split
      · rw [flushBsCache_of_err wr st _ h]
        exact ih _ _ st h
      · exact ⟨rfl, rfl⟩
    · have hrec : ∀ c l b, flushBsCache wr { st with cache := c, cacheLen := l } b =
          { st with cache := c, cacheLen := l } :=
        fun c l b => flushBsCache_of_err wr _ b h
      split
      · rw [hrec]
        exact ih _ _ _ h
      · exact ih _ _ _ h

theorem WriteBits_of_err (wr : Sink σ) (st : LWBitsWriter σ) (v n : Nat)
    (h : st.err ≠ none) :
    (WriteBits wr st v n).w = st.w ∧ (WriteBits wr st v n).err = st.err :=
  writeBitsAux_of_err wr n n _ st h

theorem WriteByte_of_err (wr : Sink σ) (st : LWBitsWriter σ) (b : Nat)
    (h : st.err ≠ none) :
    (WriteByte wr st b).w = st.w ∧ (WriteByte wr st b).err = st.err := by
  unfold LWBitsWriter.WriteByte
  dsimp only
  have hrec : ∀ c b2, flushBsCache wr { st with cache := c } b2 = { st with cache := c } :=
    fun c b2 => flushBsCache_of_err wr _ b2 h
  split
  · simp [flushBsCache_of_err wr st _ h]
  · rw [hrec]
    exact ⟨rfl, rfl⟩

theorem foldl_WriteByte_of_err (wr : Sink σ) (l : List Nat) :
    ∀ st : LWBitsWriter σ, st.err ≠ none →
    (l.foldl (fun st b => WriteByte wr st b) st).w = st.w ∧
      (l.foldl (fun st b => WriteByte wr st b) st).err = st.err := by
  induction l with
  | nil => intro st h; exact ⟨rfl, rfl⟩
  | cons b bs ih =>
    intro st h
    simp only [List.foldl_cons]
    obtain ⟨hw, he⟩ := WriteByte_of_err wr st b h
    obtain ⟨hw2, he2⟩ := ih (WriteByte wr st b) (by rw [he]; exact h)
    exact ⟨hw2.trans hw, he2.trans he⟩

theorem WriteSlice_of_err (wr : Sink σ) (st : LWBitsWriter σ) (l : List Nat)
    (h : st.err ≠ none) :
    (WriteSlice wr st l).w = st.w ∧ (WriteSlice wr st l).err = st.err := by
  unfold LWBitsWriter.WriteSlice
  dsimp only
  rw [if_neg h]
  split
  · exact ⟨rfl, rfl⟩
  split
  · exact foldl_WriteByte_of_err wr l st h
  · exact ⟨rfl, rfl⟩
end C7

/-- A writer method call, for quantifying over arbitrary sequences of
writer operations. -/
inductive WriterOp where
  | bit (b : Bool)
  | bits (v : Nat) (n : Nat)
  | byte (b : Nat)
  | u16 (v : Nat)
  | u32 (v : Nat)
  | slice (l : List Nat)
  deriving DecidableEq, Repr

/-- Applies one writer method. -/
def applyWriterOp {σ : Type} (wr : Sink σ) (st : LWBitsWriter σ) : WriterOp → LWBitsWriter σ
  | .bit b => LWBitsWriter.WriteBit wr st b
  | .bits v n => LWBitsWriter.WriteBits wr st v n
  | .byte b => LWBitsWriter.WriteByte wr st b
  | .u16 v => LWBitsWriter.WriteUint16 wr st v
  | .u32 v => LWBitsWriter.WriteUint32 wr st v
  | .slice l => LWBitsWriter.WriteSlice wr st l

/-- Applies a sequence of writer methods. -/
def applyWriterOps {σ : Type} (wr : Sink σ) (st : LWBitsWriter σ) : List WriterOp → LWBitsWriter σ
  | [] => st
  | op :: ops => applyWriterOps wr (applyWriterOp wr st op) ops

/-- Any single writer method on an already-errored writer leaves the sink
state and the latched error untouched. -/
theorem applyWriterOp_of_err {σ : Type} (wr : Sink σ) (st : LWBitsWriter σ) (op : WriterOp)
    (h : st.err ≠ none) :
    (applyWriterOp wr st op).w = st.w ∧ (applyWriterOp wr st op).err = st.err := by
  cases op with
  | bit b => exact WriteBit_of_err wr st b h
  | bits v n => exact WriteBits_of_err wr st v n h
  | byte b => exact WriteByte_of_err wr st b h
  | u16 v => exact WriteBits_of_err wr st v 16 h
  | u32 v => exact WriteBits_of_err wr st v 32 h
  | slice l => exact WriteSlice_of_err wr st l h

/-- C7: once the writer's error is latched (the first sink error), every
subsequent sequence of writer method calls is observationally a no-op with
respect to the sink, and Err() still returns the original first error. -/
theorem writer_latches_after_sink_error {σ : Type} (wr : Sink σ) (e : Err)
    (ops : List WriterOp) :
    ∀ st : LWBitsWriter σ, st.err = some e →
    (applyWriterOps wr st ops).w = st.w ∧ (applyWriterOps wr st ops).Err' = some e := by
  induction ops with
  | nil => intro st h; exact ⟨rfl, h⟩
  | cons op ops ih =>
    intro st h
    obtain ⟨hw, he⟩ := applyWriterOp_of_err wr st op (by simp [h])
    obtain ⟨hw2, he2⟩ := ih (applyWriterOp wr st op) (he.trans h)
    exact ⟨hw2.trans hw, he2⟩

/-- Witness for C7 with a concrete latched writer over the list sink and a
concrete sequence of all six writer methods. -/
theorem writer_latches_after_sink_error_witness :
    (applyWriterOps listSink ⟨[9], 0, 0, some (.sinkErr 3)⟩
      [.byte 5, .bit true, .bits 7 3, .slice [1, 2], .u16 65535, .u32 17]).w = [9] ∧
    (applyWriterOps listSink ⟨[9], 0, 0, some (.sinkErr 3)⟩
      [.byte 5, .bit true, .bits 7 3, .slice [1, 2], .u16 65535, .u32 17]).Err' =
      some (.sinkErr 3) :=
  writer_latches_after_sink_error listSink (.sinkErr 3)
    [.byte 5, .bit true, .bits 7 3, .slice [1, 2], .u16 65535, .u32 17]
    ⟨[9], 0, 0, some (.sinkErr 3)⟩ rfl

end Astits
